import Mathlib

/-!
Verification development for the Kubacco warehouse external-commerce
synchronization engine (TypeScript/Express/Supabase service).  The relational
store is modelled as an explicit record of row lists, asynchronous calls as
pure state passing, thrown exceptions as `Except String`, and the external
platform (WooCommerce storefront / Kubacco wholesale app) as an oracle
recording a trace of attempted platform calls.  Datastore writes are modelled
as always succeeding; database read errors are not modelled.
-/

namespace Kubacco

/-! ### JavaScript string primitives

The services run on Node, so string operations follow JavaScript semantics:
UTF-16 code-unit comparison for `Array.prototype.sort()`, UTF-8 bytes for
`crypto` digests, `encodeURIComponent` percent-encoding, and `parseInt`. -/

/-- UTF-8 byte sequence of a single code point. -/
def utf8Bytes (c : Char) : List Nat :=
  let n := c.toNat
  if n < 0x80 then [n]
  else if n < 0x800 then [0xC0 ||| (n >>> 6), 0x80 ||| (n &&& 0x3F)]
  else if n < 0x10000 then
    [0xE0 ||| (n >>> 12), 0x80 ||| ((n >>> 6) &&& 0x3F), 0x80 ||| (n &&& 0x3F)]
  else
    [0xF0 ||| (n >>> 18), 0x80 ||| ((n >>> 12) &&& 0x3F),
     0x80 ||| ((n >>> 6) &&& 0x3F), 0x80 ||| (n &&& 0x3F)]

/-- UTF-8 bytes of a string (what Node `crypto.update` hashes). -/
def strUtf8 (s : String) : List Nat := (s.data.map utf8Bytes).flatten

/-- UTF-16 code units of a code point (JavaScript's internal string form). -/
def utf16Units (c : Char) : List Nat :=
  let n := c.toNat
  if n < 0x10000 then [n]
  else [0xD800 + (n - 0x10000) / 0x400, 0xDC00 + (n - 0x10000) % 0x400]

/-- UTF-16 code units of a string. -/
def strUtf16 (s : String) : List Nat := (s.data.map utf16Units).flatten

/-- Strict lexicographic order on code-unit lists. -/
def natListLt : List Nat → List Nat → Bool
  | [], [] => false
  | [], _ :: _ => true
  | _ :: _, [] => false
  | a :: as, b :: bs => if a < b then true else if b < a then false else natListLt as bs

/-- JavaScript default string comparison (`<` over UTF-16 code units), the
order used by `Array.prototype.sort()` with no comparator. -/
def jsStrLt (a b : String) : Bool := natListLt (strUtf16 a) (strUtf16 b)

/-- Non-strict companion of `jsStrLt`. -/
def jsStrLe (a b : String) : Bool := !(jsStrLt b a)

/-- Insertion into a list sorted by `le`. -/
def insertLe (le : α → α → Bool) (x : α) : List α → List α
  | [] => [x]
  | y :: ys => if le x y then x :: y :: ys else y :: insertLe le x ys

/-- Insertion sort by `le`; models `Array.prototype.sort()` (the key lists we
sort have pairwise-distinct elements, so any correct sort yields the same
sequence). -/
def sortLe (le : α → α → Bool) : List α → List α
  | [] => []
  | x :: xs => insertLe le x (sortLe le xs)

/-- Characters `encodeURIComponent` leaves unescaped:
letters, digits, and - _ . ! ~ * ' ( ) (listed by code point). -/
def isUriUnreserved (c : Char) : Bool :=
  c.isAlpha || c.isDigit || [45, 95, 46, 33, 126, 42, 39, 40, 41].contains c.toNat

/-- Upper-case hexadecimal digit. -/
def hexUpper (n : Nat) : Char := "0123456789ABCDEF".data.getD n '0'

/-- `%XX` escape of one byte. -/
def percentEncodeByte (b : Nat) : String :=
  "%" ++ (hexUpper (b / 16)).toString ++ (hexUpper (b % 16)).toString

/-- JavaScript `encodeURIComponent`: unreserved characters pass through,
everything else becomes `%XX` escapes of its UTF-8 bytes. -/
def encodeURIComponent (s : String) : String :=
  String.join (s.data.map fun c =>
    if isUriUnreserved c then c.toString
    else String.join ((utf8Bytes c).map percentEncodeByte))

/-- JavaScript whitespace characters relevant to `trim`/`parseInt`. -/
def isJsSpace (c : Char) : Bool :=
  c.toNat = 32 || c.toNat = 9 || c.toNat = 10 || c.toNat = 13

/-- Numeric value of a leading run of decimal digits, if nonempty. -/
def decDigitsValue (cs : List Char) : Option Nat :=
  let ds := cs.takeWhile Char.isDigit
  if ds.isEmpty then none
  else some (ds.foldl (fun a c => a * 10 + (c.toNat - 48)) 0)

/-- JavaScript `parseInt` (base 10): skip leading whitespace, optional sign,
longest digit prefix; `none` models `NaN`. -/
def jsParseInt (s : String) : Option Int :=
  match s.data.dropWhile isJsSpace with
  | '-' :: rest => (decDigitsValue rest).map fun n => -(n : Int)
  | '+' :: rest => (decDigitsValue rest).map fun n => (n : Int)
  | cs => (decDigitsValue cs).map fun n => (n : Int)

/-- `parseInt` applied to a possibly-null column (`parseInt(null)` is `NaN`). -/
def jsParseIntOpt (s : Option String) : Option Int :=
  match s with
  | none => none
  | some t => jsParseInt t

/-- Does `s` start with `pat`? -/
def listStartsWith [BEq α] : List α → List α → Bool
  | _, [] => true
  | [], _ :: _ => false
  | a :: as, b :: bs => a == b && listStartsWith as bs

/-- Does the pattern occur as a contiguous run of `s`? -/
def listContainsSeq [BEq α] (pat : List α) : List α → Bool
  | [] => listStartsWith [] pat
  | a :: rest => listStartsWith (a :: rest) pat || listContainsSeq pat rest

/-- JavaScript `String.prototype.includes`. -/
def strIncludes (s pat : String) : Bool := listContainsSeq pat.data s.data

/-- Render of a possibly-undefined string inside a template literal. -/
def jsShowOpt : Option String → String
  | some s => s
  | none => "undefined"

/-- ASCII upper-casing of one character (method names are ASCII). -/
def charUpperAscii (c : Char) : Char :=
  if 97 ≤ c.toNat && c.toNat ≤ 122 then Char.ofNat (c.toNat - 32) else c

/-- `String.prototype.toUpperCase` on ASCII input. -/
def jsToUpperAscii (s : String) : String := ⟨s.data.map charUpperAscii⟩

/-- `Array.prototype.join(sep)`. -/
def strIntercalate (sep : String) : List String → String
  | [] => ""
  | [x] => x
  | x :: y :: rest => x ++ sep ++ strIntercalate sep (y :: rest)

/-- `String.prototype.trim`. -/
def jsTrim (s : String) : String :=
  ⟨((s.data.dropWhile isJsSpace).reverse.dropWhile isJsSpace).reverse⟩

/-! ### SHA-256, HMAC-SHA256 and base64

Node's `crypto.createHmac('sha256', key)` / `.digest('base64')`, modelled on
byte lists with 32-bit words as `Nat` reduced mod `2^32`. -/

/-- Truncation to a 32-bit word. -/
def w32 (x : Nat) : Nat := x % 4294967296

/-- 32-bit right rotation. -/
def rotr (n x : Nat) : Nat := w32 ((x >>> n) ||| (x <<< (32 - n)))

/-- SHA-256 round constants. -/
def sha256K : List Nat :=
  [1116352408, 1899447441, 3049323471, 3921009573, 961987163, 1508970993,
   2453635748, 2870763221, 3624381080, 310598401, 607225278, 1426881987,
   1925078388, 2162078206, 2614888103, 3248222580, 3835390401, 4022224774,
   264347078, 604807628, 770255983, 1249150122, 1555081692, 1996064986,
   2554220882, 2821834349, 2952996808, 3210313671, 3336571891, 3584528711,
   113926993, 338241895, 666307205, 773529912, 1294757372, 1396182291,
   1695183700, 1986661051, 2177026350, 2456956037, 2730485921, 2820302411,
   3259730800, 3345764771, 3516065817, 3600352804, 4094571909, 275423344,
   430227734, 506948616, 659060556, 883997877, 958139571, 1322822218,
   1537002063, 1747873779, 1955562222, 2024104815, 2227730452, 2361852424,
   2428436474, 2756734187, 3204031479, 3329325298]

/-- SHA-256 initial hash value. -/
def sha256H0 : List Nat :=
  [1779033703, 3144134277, 1013904242, 2773480762,
   1359893119, 2600822924, 528734635, 1541459225]

/-- Big-endian bytes of a word, `n` bytes wide. -/
def beBytes (n x : Nat) : List Nat :=
  match n with
  | 0 => []
  | m + 1 => beBytes m (x / 256) ++ [x % 256]

/-- Big-endian 32-bit word from four bytes. -/
def wordOfBytes (bs : List Nat) : Nat := bs.foldl (fun a b => a * 256 + b) 0

/-- Accumulating worker for `chunks`: `cur` holds the current chunk reversed,
`k` the remaining capacity of the current chunk. -/
def chunksAux (n : Nat) : List α → List α → Nat → List (List α)
  | [], cur, _ => if cur.isEmpty then [] else [cur.reverse]
  | x :: xs, cur, k =>
    if k ≤ 1 then (x :: cur).reverse :: chunksAux n xs [] n
    else chunksAux n xs (x :: cur) (k - 1)

/-- Split a list into chunks of `n` elements (`n > 0` for all uses). -/
def chunks (n : Nat) (l : List α) : List (List α) := chunksAux n l [] n

/-- SHA-256 padding: append `0x80`, zeros to 56 mod 64, then the 64-bit
big-endian bit length. -/
def sha256Pad (msg : List Nat) : List Nat :=
  let len := msg.length
  let zeros := (119 - len % 64) % 64
  msg ++ [0x80] ++ List.replicate zeros 0 ++ beBytes 8 (len * 8)

/-- Extend the 16-word block schedule out to 64 words (`fuel` more words). -/
def sha256Extend (w : List Nat) : Nat → List Nat
  | 0 => w
  | fuel + 1 =>
    let i := w.length
    let wm15 := w.getD (i - 15) 0
    let wm2 := w.getD (i - 2) 0
    let s0 := (rotr 7 wm15) ^^^ (rotr 18 wm15) ^^^ (wm15 >>> 3)
    let s1 := (rotr 17 wm2) ^^^ (rotr 19 wm2) ^^^ (wm2 >>> 10)
    let nw := w32 (w.getD (i - 16) 0 + s0 + w.getD (i - 7) 0 + s1)
    sha256Extend (w ++ [nw]) fuel

/-- One SHA-256 compression round. -/
def sha256Round (k wi : Nat) (st : List Nat) : List Nat :=
  match st with
  | [a, b, c, d, e, f, g, h] =>
    let s1 := (rotr 6 e) ^^^ (rotr 11 e) ^^^ (rotr 25 e)
    let ch := (e &&& f) ^^^ ((0xffffffff ^^^ e) &&& g)
    let t1 := w32 (h + s1 + ch + k + wi)
    let s0 := (rotr 2 a) ^^^ (rotr 13 a) ^^^ (rotr 22 a)
    let mj := (a &&& b) ^^^ (a &&& c) ^^^ (b &&& c)
    let t2 := w32 (s0 + mj)
    [w32 (t1 + t2), a, b, c, w32 (d + t1), e, f, g]
  | other => other

/-- Compress one 64-byte block into the running hash. -/
def sha256Block (h : List Nat) (block : List Nat) : List Nat :=
  let w := sha256Extend ((chunks 4 block).map wordOfBytes) 48
  let st := (sha256K.zip w).foldl (fun st kw => sha256Round kw.1 kw.2 st) h
  (h.zip st).map fun p => w32 (p.1 + p.2)

/-- SHA-256 digest (32 bytes) of a byte list. -/
def sha256 (msg : List Nat) : List Nat :=
  let final := (chunks 64 (sha256Pad msg)).foldl sha256Block sha256H0
  (final.map (beBytes 4)).flatten

/-- HMAC-SHA256 of a message under a key, both byte lists. -/
def hmacSha256 (key msg : List Nat) : List Nat :=
  let k0 := if key.length > 64 then sha256 key else key
  let k := k0 ++ List.replicate (64 - k0.length) 0
  let inner := sha256 ((k.map fun b => b ^^^ 0x36) ++ msg)
  sha256 ((k.map fun b => b ^^^ 0x5c) ++ inner)

/-- Standard base64 alphabet. -/
def base64Chars : List Char :=
  "ABCDEFGHIJKLMNOPQRSTUVWXYZabcdefghijklmnopqrstuvwxyz0123456789+/".data

/-- Character for a 6-bit group. -/
def b64Char (n : Nat) : String := (base64Chars.getD n 'A').toString

/-- Base64 encoding with padding (Node `.digest('base64')`). -/
def base64Encode : List Nat → String
  | [] => ""
  | [a] => b64Char (a >>> 2) ++ b64Char ((a &&& 3) <<< 4) ++ "=="
  | [a, b] => b64Char (a >>> 2) ++ b64Char (((a &&& 3) <<< 4) ||| (b >>> 4)) ++
      b64Char ((b &&& 15) <<< 2) ++ "="
  | a :: b :: c :: rest =>
    b64Char (a >>> 2) ++ b64Char (((a &&& 3) <<< 4) ||| (b >>> 4)) ++
      b64Char (((b &&& 15) <<< 2) ||| (c >>> 6)) ++ b64Char (c &&& 63) ++ base64Encode rest

/-! ### WooCommerce client (`woocommerce-client.ts`)

`generateOAuthSignature` and `verifyWebhookSignature`, embedded from the
source.  A JavaScript object of query parameters is modelled as an
association list with pairwise-distinct keys. -/

/-- First value bound to a key (JavaScript property access `params[key]`;
the key is always present in our uses). -/
def jsLookup (params : List (String × String)) (k : String) : String :=
  ((params.find? fun p => p.1 == k).map Prod.snd).getD ""

/-- The sorted-and-encoded parameter string of `generateOAuthSignature`:
`Object.keys(params).sort().map(key => enc(key)=enc(params[key])).join('&')` —
keys are sorted RAW (before percent-encoding), with JavaScript's default
code-unit comparison. -/
def sortedParamString (params : List (String × String)) : String :=
  let keys := sortLe jsStrLe (params.map Prod.fst)
  strIntercalate "&"
    (keys.map fun k => encodeURIComponent k ++ "=" ++ encodeURIComponent (jsLookup params k))

/-- The signature base string `METHOD&enc(url)&enc(sortedParams)`. -/
def signatureBaseString (method url : String) (params : List (String × String)) : String :=
  strIntercalate "&"
    [jsToUpperAscii method, encodeURIComponent url, encodeURIComponent (sortedParamString params)]

/-- `generateOAuthSignature` from `woocommerce-client.ts`: HMAC-SHA256 of the
base string under key `enc(consumerSecret) + "&"`, base64-encoded. -/
def generateOAuthSignature (consumerSecret method url : String)
    (params : List (String × String)) : String :=
  let signingKey := encodeURIComponent consumerSecret ++ "&"
  base64Encode (hmacSha256 (strUtf8 signingKey) (strUtf8 (signatureBaseString method url params)))

/-- `verifyWebhookSignature`: recompute HMAC-SHA256 (base64) of the raw
payload under the stored secret and compare to the received signature. -/
def verifyWebhookSignature (payload signature secret : String) : Bool :=
  base64Encode (hmacSha256 (strUtf8 secret) (strUtf8 payload)) == signature

/-- Modelled from the spec (claim wording): the same pipeline but with the
entries percent-encoded FIRST and then sorted lexicographically by the
encoded key.  Used only to compare against the source definition. -/
def specClaimedParamString (params : List (String × String)) : String :=
  let encoded := params.map fun p => (encodeURIComponent p.1, encodeURIComponent p.2)
  let sorted := sortLe (fun p q => jsStrLe p.1 q.1) encoded
  strIntercalate "&" (sorted.map fun p => p.1 ++ "=" ++ p.2)

/-- Modelled from the spec (claim wording): signature built from the
encoded-key-sorted parameter string. -/
def specClaimedOAuthSignature (consumerSecret method url : String)
    (params : List (String × String)) : String :=
  base64Encode (hmacSha256 (strUtf8 (encodeURIComponent consumerSecret ++ "&"))
    (strUtf8 (strIntercalate "&"
      [jsToUpperAscii method, encodeURIComponent url, encodeURIComponent (specClaimedParamString params)])))

/-- Modelled from the spec as amended: entries sorted lexicographically by
RAW key, each entry rendered as `enc(key)=enc(value)`. -/
def specAmendedParamString (params : List (String × String)) : String :=
  let sorted := sortLe (fun p q => jsStrLe p.1 q.1) params
  strIntercalate "&"
    (sorted.map fun p => encodeURIComponent p.1 ++ "=" ++ encodeURIComponent p.2)

/-- Modelled from the spec as amended: base string `METHOD&enc(url)&enc(raw-key
sorted param string)`, HMAC-SHA256 under `enc(secret)+"&"`, base64. -/
def specAmendedOAuthSignature (consumerSecret method url : String)
    (params : List (String × String)) : String :=
  base64Encode (hmacSha256 (strUtf8 (encodeURIComponent consumerSecret ++ "&"))
    (strUtf8 (strIntercalate "&"
      [jsToUpperAscii method, encodeURIComponent url, encodeURIComponent (specAmendedParamString params)])))

/-! ### Relational data model

One record per table row, carrying the columns the modelled services read or
write.  Monetary values parsed with JavaScript `parseFloat` are kept as their
source strings (no claim touches them). -/

/-- Row of `ops_orders`. -/
structure OrderRow where
  id : String
  order_code : String
  channel : String
  status : String
  receiver : String
  address : String
  address_line2 : String
  city : String
  state : String
  postal_code : String
  country : String
  email : String
  phone : String
  order_total_raw : String
  notes : Option String
  order_date : String
  external_order_id : Option String
  integration_id : Option String
  deriving Repr, DecidableEq

/-- Row of `ops_order_items`. -/
structure OrderItemRow where
  order_id : String
  sku : Option String
  item_name : String
  quantity : Int
  unit_price_raw : String
  total_price_raw : String
  is_gift : Bool
  external_product_id : String
  external_variation_id : Option String
  deriving Repr, DecidableEq

/-- Row of `integrations`; the opaque `config` blob is flattened to the two
fields the modelled code reads (`config.apiKey`, `config.webhookSecret`). -/
structure IntegrationRow where
  id : String
  platform_type : String
  name : String
  is_active : Bool
  config_apiKey : Option String
  config_webhookSecret : Option String
  sync_status : String
  error_message : Option String
  last_sync_at : Option String
  deriving Repr, DecidableEq

/-- Row of `integration_outbound_sync_logs`. -/
structure OutboundLogRow where
  id : String
  order_id : String
  integration_id : String
  platform_type : String
  channel : String
  old_status : String
  new_status : String
  result : String
  error_message : Option String
  retry_count : Nat
  last_retry_at : Option String
  synced_at : Option String
  deriving Repr, DecidableEq

/-- Row of `integration_sync_logs`; the free-form JSON `details` payload is
not modelled, `error_details` is modelled as its list of error strings. -/
structure SyncLogRow where
  id : String
  integration_id : String
  sync_type : String
  direction : String
  status : String
  records_processed : Nat
  records_failed : Nat
  error_details : Option (List String)
  started_at : String
  completed_at : Option String
  deriving Repr, DecidableEq

/-- Row of `webhook_queue`. -/
structure WebhookQueueRow where
  id : String
  integration_id : String
  event_type : String
  payload : String
  signature : Option String
  status : String
  error_message : Option String
  processed_at : Option String
  deriving Repr, DecidableEq

/-- Row of `product_mappings`. -/
structure ProductMappingRow where
  id : String
  integration_id : String
  warehouse_product_id : String
  warehouse_product_type : String
  warehouse_variation_id : Option String
  external_product_id : String
  external_variation_id : Option String
  sku : Option String
  sync_inventory : Bool
  last_synced_at : Option String
  deriving Repr, DecidableEq

/-- Row of `inventory_cigars` (availability ledger by product and variation). -/
structure CigarInventoryRow where
  product_id : String
  variation_id : String
  available : Nat
  deriving Repr, DecidableEq

/-- Row of `bundles` (only the stock column is read). -/
structure BundleRow where
  id : String
  stock_quantity : Nat
  deriving Repr, DecidableEq

/-- Row of `accessories` (only the stock column is read). -/
structure AccessoryRow where
  id : String
  stock_quantity : Nat
  deriving Repr, DecidableEq

/-- The relational store. -/
structure Db where
  orders : List OrderRow
  orderItems : List OrderItemRow
  integrations : List IntegrationRow
  outboundLogs : List OutboundLogRow
  syncLogs : List SyncLogRow
  webhookQueue : List WebhookQueueRow
  productMappings : List ProductMappingRow
  cigarInventory : List CigarInventoryRow
  bundles : List BundleRow
  accessories : List AccessoryRow
  deriving Repr, DecidableEq

/-- `maybeSingle` lookup of an order by id. -/
def findOrder (db : Db) (id : String) : Option OrderRow :=
  db.orders.find? fun o => o.id == id

/-- `maybeSingle` lookup of an integration by id. -/
def findIntegration (db : Db) (id : String) : Option IntegrationRow :=
  db.integrations.find? fun i => i.id == id

/-- Integration of an order (`eq('id', order.integration_id)`; a null
`integration_id` matches no row). -/
def orderIntegration (db : Db) (order : OrderRow) : Option IntegrationRow :=
  order.integration_id.bind (findIntegration db)

/-- `maybeSingle` lookup of an outbound sync log by id. -/
def findOutboundLog (db : Db) (id : String) : Option OutboundLogRow :=
  db.outboundLogs.find? fun l => l.id == id

/-- Update-by-id on `integration_outbound_sync_logs`. -/
def updateOutboundLog (db : Db) (id : String) (f : OutboundLogRow → OutboundLogRow) : Db :=
  { db with outboundLogs := db.outboundLogs.map fun r => if r.id == id then f r else r }

/-- Update-by-id on `integration_sync_logs`. -/
def updateSyncLogRow (db : Db) (id : String) (f : SyncLogRow → SyncLogRow) : Db :=
  { db with syncLogs := db.syncLogs.map fun r => if r.id == id then f r else r }

/-- Update-by-id on `integrations`. -/
def updateIntegrationRow (db : Db) (id : String) (f : IntegrationRow → IntegrationRow) : Db :=
  { db with integrations := db.integrations.map fun r => if r.id == id then f r else r }

/-- Update-by-id on `product_mappings`. -/
def updateProductMappingRow (db : Db) (id : String) (f : ProductMappingRow → ProductMappingRow) : Db :=
  { db with productMappings := db.productMappings.map fun r => if r.id == id then f r else r }

/-- Database-assigned id for a new outbound log row. -/
def nextOutboundLogId (db : Db) : String := "OL" ++ toString db.outboundLogs.length

/-- Database-assigned id for a new sync log row. -/
def nextSyncLogId (db : Db) : String := "SL" ++ toString db.syncLogs.length

/-- Database-assigned id for a new imported order. -/
def nextOrderId (db : Db) : String := "ORD" ++ toString db.orders.length

/-- Database-assigned id for a new webhook queue entry. -/
def nextWebhookQueueId (db : Db) : String := "WQ" ++ toString db.webhookQueue.length

/-! ### WooCommerce order payloads (`WooCommerceOrder` interface) -/

/-- Billing address of a WooCommerce order. -/
structure WooBillingAddress where
  first_name : String
  last_name : String
  address_1 : String
  address_2 : String
  city : String
  state : String
  postcode : String
  country : String
  email : String
  phone : String
  deriving Repr, DecidableEq

/-- Shipping address of a WooCommerce order. -/
structure WooShippingAddress where
  first_name : String
  last_name : String
  address_1 : String
  address_2 : String
  city : String
  state : String
  postcode : String
  country : String
  deriving Repr, DecidableEq

/-- Line item of a WooCommerce order. -/
structure WooLineItem where
  id : Int
  name : String
  product_id : Int
  variation_id : Int
  quantity : Int
  sku : String
  price : String
  total : String
  deriving Repr, DecidableEq

/-- External order as returned by the WooCommerce API. -/
structure WooOrder where
  id : Int
  order_key : String
  status : String
  currency : String
  date_created : String
  date_modified : String
  total : String
  billing : WooBillingAddress
  shipping : WooShippingAddress
  line_items : List WooLineItem
  customer_note : String
  deriving Repr, DecidableEq

/-! ### External platform oracle

The WooCommerce REST client and the Kubacco edge-function callout are
modelled as an oracle deciding the outcome of each outbound platform request,
with the trace of attempted calls returned alongside each result.  An
`Except.error` models the descriptive platform error the client throws
(non-2xx status or network failure). -/

/-- One outbound platform request.  Product/variation ids come from
`parseInt`, so a non-numeric id (`NaN`) is `none`. -/
inductive PlatformCall where
  | wooUpdateOrderStatus (orderId : Int) (status : String)
  | wooUpdateProductVariationStock (productId : Option Int) (variationId : Int) (quantity : Nat)
  | wooBatchUpdateProducts (updates : List (Option Int × Nat))
  | wooGetOrders
  | kubaccoUpdateOrderStatus (orderId : String) (status : String)
  deriving Repr, DecidableEq

/-- Outcomes of platform requests. -/
structure PlatformOracle where
  updateOrderStatus : Int → String → Except String Unit
  updateProductVariationStock : Option Int → Int → Nat → Except String Unit
  batchUpdateProducts : List (Option Int × Nat) → Except String Unit
  getOrders : Except String (List WooOrder)
  kubaccoUpdateStatus : String → String → Except String Unit

/-! ### Status sync / retry engine (`order-status-sync.service.ts`) -/

/-- Result object returned by the status-sync entry points (`SyncResult`
interface; the optional `retryCount` field is never populated by the service
and is omitted). -/
structure SyncResultRec where
  success : Bool
  syncLogId : String
  orderId : String
  platformType : String
  newStatus : String
  error : Option String
  deriving Repr, DecidableEq

/-- `mapToWooCommerceStatus`: warehouse → WooCommerce status vocabulary,
defaulting to `processing`. -/
def mapToWooCommerceStatus (warehouseStatus : String) : String :=
  match warehouseStatus with
  | "PROCESSING" => "processing"
  | "READY_TO_SHIP" => "processing"
  | "SHIPMENT_CREATED" => "processing"
  | "PACKAGING" => "processing"
  | "SHIPPED" => "completed"
  | "IN_TRANSIT" => "completed"
  | "DELIVERED" => "completed"
  | "CANCELLED" => "cancelled"
  | "RETURNED" => "refunded"
  | _ => "processing"

/-- `mapToKubaccoStatus`: warehouse → Kubacco app status vocabulary,
defaulting to `processing`. -/
def mapToKubaccoStatus (warehouseStatus : String) : String :=
  match warehouseStatus with
  | "PROCESSING" => "processing"
  | "READY_TO_SHIP" => "processing"
  | "SHIPMENT_CREATED" => "processing"
  | "PACKAGING" => "processing"
  | "SHIPPED" => "completed"
  | "IN_TRANSIT" => "in-transit"
  | "DELIVERED" => "completed"
  | "CANCELLED" => "cancelled"
  | "RETURNED" => "refunded"
  | _ => "processing"

/-- The fixed channel → platform-type mapping of `validateChannelSegregation`
(`validCombinations` table; unknown channels map to `undefined`). -/
def expectedPlatformForChannel (orderChannel : String) : Option String :=
  match orderChannel with
  | "WHOLESALE" => some "KUBACCO_APP"
  | "ONLINE" => some "WOOCOMMERCE"
  | _ => none

/-- `validateChannelSegregation`: throw unless the integration's platform type
is exactly the one the order's channel maps to. -/
def validateChannelSegregation (orderChannel platformType : String) : Except String Unit :=
  if expectedPlatformForChannel orderChannel = some platformType then Except.ok ()
  else Except.error ("Channel segregation violation: " ++ orderChannel ++
    " orders cannot sync to " ++ platformType ++ ". Expected: " ++
    jsShowOpt (expectedPlatformForChannel orderChannel))

/-- `createSyncLog` (private insert into `integration_outbound_sync_logs`,
always with `retry_count: 0`); returns the inserted row and the new store. -/
def createOutboundSyncLog (db : Db) (orderId integrationId platformType channel oldStatus newStatus result : String)
    (errorMessage : Option String) (syncedAt : Option String) : OutboundLogRow × Db :=
  let row : OutboundLogRow :=
    { id := nextOutboundLogId db, order_id := orderId, integration_id := integrationId,
      platform_type := platformType, channel := channel, old_status := oldStatus,
      new_status := newStatus, result := result, error_message := errorMessage,
      retry_count := 0, last_retry_at := none, synced_at := syncedAt }
  (row, { db with outboundLogs := db.outboundLogs ++ [row] })

/-- `syncToWooCommerce`: require a client, parse the external order id, map
the status, push it, then insert a SUCCESS outbound log row.  Returns the
thrown message or the success result, plus the platform calls attempted. -/
def syncToWooCommerce (db : Db) (oracle : PlatformOracle) (now : String)
    (order : OrderRow) (integ : IntegrationRow) (newStatus oldStatus : String)
    (clientProvided : Bool) : Except String (SyncResultRec × Db) × List PlatformCall :=
  if !clientProvided then (Except.error "WooCommerceClient not provided", [])
  else
    match jsParseIntOpt order.external_order_id with
    | none =>
      (Except.error ("Invalid WooCommerce order ID: " ++ jsShowOpt order.external_order_id), [])
    | some externalOrderId =>
      let wooStatus := mapToWooCommerceStatus newStatus
      let call := PlatformCall.wooUpdateOrderStatus externalOrderId wooStatus
      match oracle.updateOrderStatus externalOrderId wooStatus with
      | Except.error e => (Except.error e, [call])
      | Except.ok () =>
        let (row, db1) := createOutboundSyncLog db order.id integ.id "WOOCOMMERCE" order.channel
          oldStatus newStatus "SUCCESS" none (some now)
        let res : SyncResultRec :=
          { success := true, syncLogId := row.id, orderId := order.id,
            platformType := "WOOCOMMERCE", newStatus := newStatus, error := none }
        (Except.ok (res, db1), [call])

/-- `syncToKubacco`: require an external order id and a configured API key,
map the status, POST to the edge function (the oracle's error string models
the thrown `Kubacco API error: status - message`), then insert a SUCCESS
outbound log row. -/
def syncToKubacco (db : Db) (oracle : PlatformOracle) (now : String)
    (order : OrderRow) (integ : IntegrationRow) (newStatus oldStatus : String) :
    Except String (SyncResultRec × Db) × List PlatformCall :=
  if (order.external_order_id.getD "") == "" then
    (Except.error ("No Kubacco order ID found for order " ++ order.id), [])
  else
    let kubaccoOrderId := order.external_order_id.getD ""
    let kubaccoStatus := mapToKubaccoStatus newStatus
    if (integ.config_apiKey.getD "") == "" then
      (Except.error "Kubacco API key not configured", [])
    else
      let call := PlatformCall.kubaccoUpdateOrderStatus kubaccoOrderId kubaccoStatus
      match oracle.kubaccoUpdateStatus kubaccoOrderId kubaccoStatus with
      | Except.error e => (Except.error e, [call])
      | Except.ok () =>
        let (row, db1) := createOutboundSyncLog db order.id integ.id "KUBACCO_APP" order.channel
          oldStatus newStatus "SUCCESS" none (some now)
        let res : SyncResultRec :=
          { success := true, syncLogId := row.id, orderId := order.id,
            platformType := "KUBACCO_APP", newStatus := newStatus, error := none }
        (Except.ok (res, db1), [call])

/-- Body of the `try` block of `syncStatusToExternalPlatform`: load order and
integration, enforce channel segregation, branch by platform type.  No store
write happens before a throw, so the catch below resumes from the input
store. -/
def syncStatusAttempt (db : Db) (oracle : PlatformOracle) (now : String)
    (orderId newStatus : String) (clientProvided : Bool) :
    Except String (SyncResultRec × Db) × List PlatformCall :=
  match findOrder db orderId with
  | none => (Except.error ("Order not found: " ++ orderId), [])
  | some order =>
    match orderIntegration db order with
    | none => (Except.error ("Integration not found for order " ++ orderId), [])
    | some integ =>
      match validateChannelSegregation order.channel integ.platform_type with
      | Except.error e => (Except.error e, [])
      | Except.ok () =>
        let oldStatus := order.status
        if integ.platform_type == "WOOCOMMERCE" then
          syncToWooCommerce db oracle now order integ newStatus oldStatus clientProvided
        else if integ.platform_type == "KUBACCO_APP" then
          syncToKubacco db oracle now order integ newStatus oldStatus
        else
          (Except.error ("Unsupported platform type: " ++ integ.platform_type), [])

/-- Outcome of a status-sync entry point: the returned result object, the
final store, and the trace of platform calls attempted. -/
structure SyncOutcome where
  res : SyncResultRec
  db : Db
  calls : List PlatformCall
  deriving Repr, DecidableEq

/-- `syncStatusToExternalPlatform`: on any exception, insert a FAILED
outbound row with platform type `UNKNOWN`, empty integration id and channel,
and return a failure result instead of throwing. -/
def syncStatusToExternalPlatform (db : Db) (oracle : PlatformOracle) (now : String)
    (orderId newStatus : String) (clientProvided : Bool) : SyncOutcome :=
  match syncStatusAttempt db oracle now orderId newStatus clientProvided with
  | (Except.ok (res, db1), calls) => { res := res, db := db1, calls := calls }
  | (Except.error e, calls) =>
    let (row, db1) := createOutboundSyncLog db orderId "" "UNKNOWN" "" "" newStatus "FAILED"
      (some e) none
    let res : SyncResultRec :=
      { success := false, syncLogId := row.id, orderId := orderId,
        platformType := "UNKNOWN", newStatus := newStatus, error := some e }
    { res := res, db := db1, calls := calls }

/-- Body of the `try` block of `retrySyncLog`: load the log, reject at
`retry_count >= 5`, reload order and integration, repeat the platform branch
with the recorded statuses, then bump the original row's retry counter. -/
def retrySyncAttempt (db : Db) (oracle : PlatformOracle) (now : String)
    (syncLogId : String) (clientProvided : Bool) :
    Except String (SyncResultRec × Db) × List PlatformCall :=
  match findOutboundLog db syncLogId with
  | none => (Except.error ("Sync log not found: " ++ syncLogId), [])
  | some syncLog =>
    if syncLog.retry_count ≥ 5 then (Except.error "Maximum retry attempts exceeded (5)", [])
    else
      match findOrder db syncLog.order_id with
      | none => (Except.error ("Order not found: " ++ syncLog.order_id), [])
      | some order =>
        match findIntegration db syncLog.integration_id with
        | none => (Except.error ("Integration not found: " ++ syncLog.integration_id), [])
        | some integ =>
          let branch :=
            if syncLog.platform_type == "WOOCOMMERCE" then
              syncToWooCommerce db oracle now order integ syncLog.new_status syncLog.old_status
                clientProvided
            else if syncLog.platform_type == "KUBACCO_APP" then
              syncToKubacco db oracle now order integ syncLog.new_status syncLog.old_status
            else
              (Except.error ("Unknown platform type: " ++ syncLog.platform_type), [])
          match branch with
          | (Except.error e, calls) => (Except.error e, calls)
          | (Except.ok (res, db1), calls) =>
            let db2 := updateOutboundLog db1 syncLogId fun r =>
              { r with retry_count := syncLog.retry_count + 1, last_retry_at := some now }
            (Except.ok (res, db2), calls)

/-- `retrySyncLog`: the catch block re-reads the row's current retry count
and writes `retry_count || 0 + 1` — which JavaScript parses as
`retry_count || 1`, so an already-positive count is left unchanged — then
returns a failure result. -/
def retrySyncLog (db : Db) (oracle : PlatformOracle) (now : String)
    (syncLogId : String) (clientProvided : Bool) : SyncOutcome :=
  match retrySyncAttempt db oracle now syncLogId clientProvided with
  | (Except.ok (res, db1), calls) => { res := res, db := db1, calls := calls }
  | (Except.error e, calls) =>
    let reread := (findOutboundLog db syncLogId).map OutboundLogRow.retry_count
    let newCount :=
      match reread with
      | some rc => if rc ≠ 0 then rc else 1
      | none => 1
    let db1 := updateOutboundLog db syncLogId fun r =>
      { r with retry_count := newCount, last_retry_at := some now, error_message := some e }
    let res : SyncResultRec :=
      { success := false, syncLogId := syncLogId, orderId := "", platformType := "",
        newStatus := "", error := some e }
    { res := res, db := db1, calls := calls }

/-! ### Order import pipeline (`order-import.service.ts`) -/

/-- Per-order result (`ImportOrderResult` interface). -/
structure ImportOrderResult where
  success : Bool
  orderId : Option String
  externalOrderId : Int
  error : Option String
  deriving Repr, DecidableEq

/-- `mapWooCommerceStatusToWarehouse`: WooCommerce → warehouse vocabulary,
defaulting to `PROCESSING`. -/
def mapWooCommerceStatusToWarehouse (wooStatus : String) : String :=
  match wooStatus with
  | "pending" => "PROCESSING"
  | "processing" => "PROCESSING"
  | "on-hold" => "PROCESSING"
  | "completed" => "DELIVERED"
  | "cancelled" => "CANCELLED"
  | "refunded" => "RETURNED"
  | "failed" => "CANCELLED"
  | _ => "PROCESSING"

/-- `orderExists`: dedup lookup by `(external_order_id, integration_id)`. -/
def orderExists (db : Db) (externalOrderId : Int) (integrationId : String) : Bool :=
  (db.orders.find? fun o =>
    o.external_order_id == some (toString externalOrderId) &&
    o.integration_id == some integrationId).isSome

/-- The `orderData` object `importOrder` inserts into `ops_orders` for a new
id `oid` (shipping address chosen when its street and city are non-empty,
billing otherwise). -/
def importedOrderRow (oid : String) (wooOrder : WooOrder) (integrationId : String) : OrderRow :=
  let sa := wooOrder.shipping
  let ba := wooOrder.billing
  let useShipping := sa.address_1 != "" && sa.city != ""
  { id := oid,
    order_code := if wooOrder.order_key != "" then wooOrder.order_key
      else "WOO-" ++ toString wooOrder.id,
    channel := "ONLINE",
    status := mapWooCommerceStatusToWarehouse wooOrder.status,
    receiver := (if useShipping then sa.first_name ++ " " ++ sa.last_name
      else ba.first_name ++ " " ++ ba.last_name) |> jsTrim,
    address := if useShipping then sa.address_1 else ba.address_1,
    address_line2 := if useShipping then sa.address_2 else ba.address_2,
    city := if useShipping then sa.city else ba.city,
    state := if useShipping then sa.state else ba.state,
    postal_code := if useShipping then sa.postcode else ba.postcode,
    country := if useShipping then sa.country else ba.country,
    email := ba.email,
    phone := ba.phone,
    order_total_raw := wooOrder.total,
    notes := if wooOrder.customer_note != "" then some wooOrder.customer_note else none,
    order_date := wooOrder.date_created,
    external_order_id := some (toString wooOrder.id),
    integration_id := some integrationId }

/-- One `ops_order_items` row `importOrder` inserts for a line item. -/
def importedItemRow (oid : String) (item : WooLineItem) : OrderItemRow :=
  { order_id := oid,
    sku := if item.sku != "" then some item.sku else none,
    item_name := item.name,
    quantity := item.quantity,
    unit_price_raw := item.price,
    total_price_raw := item.total,
    is_gift := false,
    external_product_id := toString item.product_id,
    external_variation_id := if item.variation_id != (0 : Int) then
      some (toString item.variation_id) else none }

/-- `importOrder`: skip when already imported, otherwise map the payload to a
warehouse order row plus line-item rows (datastore writes modelled as
succeeding; the item insert is best-effort in the source and its failure path
does not alter the result). -/
def importOrder (db : Db) (wooOrder : WooOrder) (integrationId : String) :
    ImportOrderResult × Db :=
  if orderExists db wooOrder.id integrationId then
    ({ success := false, orderId := none, externalOrderId := wooOrder.id,
       error := some "Order already imported" }, db)
  else
    let oid := nextOrderId db
    let row := importedOrderRow oid wooOrder integrationId
    let items := wooOrder.line_items.map (importedItemRow oid)
    let db1 := { db with orders := db.orders ++ [row], orderItems := db.orderItems ++ items }
    ({ success := true, orderId := some oid, externalOrderId := wooOrder.id, error := none }, db1)

/-- Aggregated results of an import run. -/
structure ImportRunResults where
  total : Nat
  imported : Nat
  skipped : Nat
  failed : Nat
  errors : List String
  deriving Repr, DecidableEq

/-- How the batch loop classifies one per-order result: success counts as
imported, an error containing `already imported` as skipped, anything else as
failed. -/
def importClassify (r : ImportOrderResult) : String :=
  if r.success then "imported"
  else if strIncludes (r.error.getD "") "already imported" then "skipped"
  else "failed"

/-- One step of the import batch loop. -/
def importStep (integrationId : String) (acc : ImportRunResults × Db) (wooOrder : WooOrder) :
    ImportRunResults × Db :=
  let (results, dbAcc) := acc
  let (r, db1) := importOrder dbAcc wooOrder integrationId
  let results1 :=
    if importClassify r == "imported" then { results with imported := results.imported + 1 }
    else if importClassify r == "skipped" then { results with skipped := results.skipped + 1 }
    else { results with
           failed := results.failed + 1,
           errors := results.errors ++ ["Order " ++ toString wooOrder.id ++ ": " ++ (r.error.getD "")] }
  (results1, db1)

/-- `importOrdersFromWooCommerce`: integration lookup and platform check
before the log row exists throw past the boundary; then a RUNNING
`ORDER_IMPORT` log row is opened, a page of orders fetched, each imported
sequentially, the log closed with SUCCESS/PARTIAL/FAILED, and the
integration stamped.  The catch updates the log to FAILED, marks the
integration ERROR, and RE-THROWS (`Except.error` in the first component). -/
def importOrdersFromWooCommerce (db : Db) (oracle : PlatformOracle) (now : String)
    (integrationId : String) : Except String ImportRunResults × Db :=
  match findIntegration db integrationId with
  | none => (Except.error "Integration not found", db)
  | some integ =>
    if integ.platform_type != "WOOCOMMERCE" then
      (Except.error "Integration is not a WooCommerce integration", db)
    else
      let logId := nextSyncLogId db
      let logRow : SyncLogRow :=
        { id := logId, integration_id := integrationId, sync_type := "ORDER_IMPORT",
          direction := "INBOUND", status := "RUNNING", records_processed := 0,
          records_failed := 0, error_details := none, started_at := now, completed_at := none }
      let db0 := { db with syncLogs := db.syncLogs ++ [logRow] }
      match oracle.getOrders with
      | Except.error e =>
        let db1 := updateSyncLogRow db0 logId fun r =>
          { r with status := "FAILED", completed_at := some now, error_details := some [e] }
        let db2 := updateIntegrationRow db1 integrationId fun i =>
          { i with sync_status := "ERROR", error_message := some e }
        (Except.error e, db2)
      | Except.ok orders =>
        let init : ImportRunResults :=
          { total := orders.length, imported := 0, skipped := 0, failed := 0, errors := [] }
        let (results, db1) := orders.foldl (importStep integrationId) (init, db0)
        let finalStatus :=
          if results.failed = 0 then "SUCCESS"
          else if results.imported > 0 then "PARTIAL" else "FAILED"
        let db2 := updateSyncLogRow db1 logId fun r =>
          { r with
            status := finalStatus,
            records_processed := results.imported + results.skipped,
            records_failed := results.failed, completed_at := some now,
            error_details := if results.errors.length > 0 then some results.errors else none }
        let db3 := updateIntegrationRow db2 integrationId fun i =>
          { i with last_sync_at := some now, sync_status := "CONNECTED", error_message := none }
        (Except.ok results, db3)

/-- `processWebhookOrder`: the single-order webhook variant opens and closes
its own `WEBHOOK` sync log around `importOrder` (whose own catch makes it
total here, so this function's rethrowing catch is unreachable in the
model). -/
def processWebhookOrder (db : Db) (now : String) (integrationId : String)
    (wooOrder : WooOrder) : ImportOrderResult × Db :=
  let logId := nextSyncLogId db
  let logRow : SyncLogRow :=
    { id := logId, integration_id := integrationId, sync_type := "WEBHOOK",
      direction := "INBOUND", status := "RUNNING", records_processed := 0,
      records_failed := 0, error_details := none, started_at := now, completed_at := none }
  let db0 := { db with syncLogs := db.syncLogs ++ [logRow] }
  let (result, db1) := importOrder db0 wooOrder integrationId
  let db2 := updateSyncLogRow db1 logId fun r =>
    { r with
      status := if result.success then "SUCCESS" else "FAILED",
      records_processed := if result.success then 1 else 0,
      records_failed := if result.success then 0 else 1,
      completed_at := some now,
      error_details := result.error.map fun e => [e] }
  (result, db2)

/-! ### Inventory export pipeline (`inventory-sync.service.ts`) -/

/-- Aggregated results of an inventory export run (`InventorySyncResult`). -/
structure InventorySyncResult where
  total : Nat
  synced : Nat
  skipped : Nat
  failed : Nat
  errors : List String
  deriving Repr, DecidableEq

/-- `getWarehouseInventory`: resolve available quantity by product kind.
CIGAR with a (truthy) variation id reads the availability ledger, BUNDLE and
ACCESSORY read their stock column; in each branch a MISSING row falls back to
`?? 0`, so only an uninterpretable mapping (CIGAR without variation id, or an
unknown kind) yields `none`.  Database read errors (the other `null` source in
the source) are not modelled. -/
def getWarehouseInventory (db : Db) (productId productType : String)
    (variationId : Option String) : Option Nat :=
  if productType == "CIGAR" && (variationId.getD "") != "" then
    some (((db.cigarInventory.find? fun r =>
      r.product_id == productId && r.variation_id == variationId.getD "").map
        CigarInventoryRow.available).getD 0)
  else if productType == "BUNDLE" then
    some (((db.bundles.find? fun r => r.id == productId).map BundleRow.stock_quantity).getD 0)
  else if productType == "ACCESSORY" then
    some (((db.accessories.find? fun r => r.id == productId).map
      AccessoryRow.stock_quantity).getD 0)
  else
    none

/-- Loop state of the export run: counts, store, accumulated simple-product
batch, and platform-call trace. -/
structure InvLoopState where
  results : InventorySyncResult
  db : Db
  updates : List (Option Int × Nat)
  calls : List PlatformCall
  deriving Repr, DecidableEq

/-- One step of the export loop over mappings: a `none` resolution is counted
skipped with a message naming the product id; a variation-level external
product is pushed individually (its throw caught as a failed record); a
simple product is accumulated for the final batch; each synced mapping's
last-synced timestamp is refreshed. -/
def invStep (oracle : PlatformOracle) (now : String) (st : InvLoopState)
    (mapping : ProductMappingRow) : InvLoopState :=
  match getWarehouseInventory st.db mapping.warehouse_product_id
      mapping.warehouse_product_type mapping.warehouse_variation_id with
  | none =>
    { st with results := { st.results with
        skipped := st.results.skipped + 1,
        errors := st.results.errors ++
          ["Product " ++ mapping.warehouse_product_id ++ " not found in warehouse"] } }
  | some inventory =>
    let productId := jsParseInt mapping.external_product_id
    let variationId :=
      if (mapping.external_variation_id.getD "") != "" then
        jsParseInt (mapping.external_variation_id.getD "")
      else none
    match variationId with
    | some vid =>
      if vid ≠ 0 then
        let call := PlatformCall.wooUpdateProductVariationStock productId vid inventory
        match oracle.updateProductVariationStock productId vid inventory with
        | Except.error e =>
          { st with
            results := { st.results with
              failed := st.results.failed + 1,
              errors := st.results.errors ++ ["Mapping " ++ mapping.id ++ ": " ++ e] },
            calls := st.calls ++ [call] }
        | Except.ok () =>
          let db1 := updateProductMappingRow st.db mapping.id fun m =>
            { m with last_synced_at := some now }
          { st with
            results := { st.results with synced := st.results.synced + 1 },
            db := db1, calls := st.calls ++ [call] }
      else
        let db1 := updateProductMappingRow st.db mapping.id fun m =>
          { m with last_synced_at := some now }
        { st with
          results := { st.results with synced := st.results.synced + 1 },
          db := db1, updates := st.updates ++ [(productId, inventory)] }
    | none =>
      let db1 := updateProductMappingRow st.db mapping.id fun m =>
        { m with last_synced_at := some now }
      { st with
        results := { st.results with synced := st.results.synced + 1 },
        db := db1, updates := st.updates ++ [(productId, inventory)] }

/-- `syncInventoryToWooCommerce`: integration lookup and platform check before
the log row exists throw past the boundary; then a RUNNING `INVENTORY_EXPORT`
log row is opened, sync-enabled (optionally product-filtered) mappings are
processed sequentially, accumulated simple products are batch-pushed once at
the end (a batch failure only appends an error string), the log is closed and
the integration stamped.  Every throw site inside the `try` is caught before
the outer catch, so the outer catch-and-rethrow is unreachable in the model. -/
def syncInventoryToWooCommerce (db : Db) (oracle : PlatformOracle) (now : String)
    (integrationId : String) (warehouseProductIds : Option (List String)) :
    Except String InventorySyncResult × Db × List PlatformCall :=
  match findIntegration db integrationId with
  | none => (Except.error "Integration not found", db, [])
  | some integ =>
    if integ.platform_type != "WOOCOMMERCE" then
      (Except.error "Integration is not a WooCommerce integration", db, [])
    else
      let logId := nextSyncLogId db
      let logRow : SyncLogRow :=
        { id := logId, integration_id := integrationId, sync_type := "INVENTORY_EXPORT",
          direction := "OUTBOUND", status := "RUNNING", records_processed := 0,
          records_failed := 0, error_details := none, started_at := now, completed_at := none }
      let db0 := { db with syncLogs := db.syncLogs ++ [logRow] }
      let mappings := db.productMappings.filter fun m => m.integration_id == integrationId
      let mappings := mappings.filter ProductMappingRow.sync_inventory
      let mappings :=
        match warehouseProductIds with
        | some ids =>
          if ids.length > 0 then
            mappings.filter (fun (m : ProductMappingRow) => ids.contains m.warehouse_product_id)
          else mappings
        | none => mappings
      let initResults : InventorySyncResult :=
        { total := mappings.length, synced := 0, skipped := 0, failed := 0, errors := [] }
      let init : InvLoopState :=
        { results := initResults, db := db0, updates := [], calls := [] }
      let st := mappings.foldl (invStep oracle now) init
      let (results1, calls1) :=
        if st.updates.length > 0 then
          match oracle.batchUpdateProducts st.updates with
          | Except.error e =>
            ({ st.results with errors := st.results.errors ++ ["Batch update failed: " ++ e] },
             st.calls ++ [PlatformCall.wooBatchUpdateProducts st.updates])
          | Except.ok () =>
            (st.results, st.calls ++ [PlatformCall.wooBatchUpdateProducts st.updates])
        else (st.results, st.calls)
      let finalStatus :=
        if results1.failed = 0 then "SUCCESS"
        else if results1.synced > 0 then "PARTIAL" else "FAILED"
      let db1 := updateSyncLogRow st.db logId fun r =>
        { r with
          status := finalStatus,
          records_processed := results1.synced + results1.skipped,
          records_failed := results1.failed, completed_at := some now,
          error_details := if results1.errors.length > 0 then some results1.errors else none }
      let db2 := updateIntegrationRow db1 integrationId fun i =>
        { i with last_sync_at := some now, sync_status := "CONNECTED", error_message := none }
      (Except.ok results1, db2, calls1)

/-! ### Inbound webhook route (`webhooks.routes.ts`, `POST /woocommerce/:integrationId`) -/

/-- An inbound webhook request.  `payloadRaw` models `JSON.stringify(req.body)`
(the bytes the signature is verified over) and `payloadOrder` the same body
read as a `WooCommerceOrder` for processing. -/
structure WebhookRequest where
  integrationId : String
  signature : Option String
  topic : Option String
  event : Option String
  payloadRaw : String
  payloadOrder : WooOrder
  deriving Repr, DecidableEq

/-- HTTP status plus resulting store of the webhook handler. -/
structure WebhookHandlerOutcome where
  status : Nat
  db : Db
  deriving Repr, DecidableEq

/-- The webhook route handler: 404 when the integration is missing, 400 when
it is inactive; the signature is verified ONLY when both a stored
`webhookSecret` and a signature header are present (non-empty), rejecting
with 401; then the event is enqueued and, for `order.created`/`order.updated`
topics, processed through `processWebhookOrder` (its errors swallowed by the
route), answering 200. -/
def handleWooCommerceWebhook (db : Db) (now : String) (req : WebhookRequest) :
    WebhookHandlerOutcome :=
  match findIntegration db req.integrationId with
  | none => { status := 404, db := db }
  | some integ =>
    if !integ.is_active then { status := 400, db := db }
    else
      let webhookSecret := integ.config_webhookSecret.getD ""
      let signature := req.signature.getD ""
      let verified :=
        if webhookSecret != "" && signature != "" then
          verifyWebhookSignature req.payloadRaw signature webhookSecret
        else true
      if !verified then { status := 401, db := db }
      else
        let topicStr := req.topic.getD ""
        let eventStr := req.event.getD ""
        let eventType :=
          if topicStr != "" then topicStr
          else if eventStr != "" then eventStr else "unknown"
        let row : WebhookQueueRow :=
          { id := nextWebhookQueueId db, integration_id := req.integrationId,
            event_type := eventType, payload := req.payloadRaw, signature := req.signature,
            status := "PENDING", error_message := none, processed_at := none }
        let db1 := { db with webhookQueue := db.webhookQueue ++ [row] }
        let db2 :=
          if req.topic == some "order.created" || req.topic == some "order.updated" then
            (processWebhookOrder db1 now req.integrationId req.payloadOrder).2
          else db1
        { status := 200, db := db2 }

/-! ### Concrete fixtures

Small concrete stores, oracles and payloads used to instantiate the theorems
below on explicit inputs. -/

/-- The empty store. -/
def emptyDb : Db :=
  { orders := [], orderItems := [], integrations := [], outboundLogs := [], syncLogs := [],
    webhookQueue := [], productMappings := [], cigarInventory := [], bundles := [],
    accessories := [] }

/-- Oracle on which every platform request succeeds (and order fetches return
an empty page). -/
def okOracle : PlatformOracle :=
  { updateOrderStatus := fun _ _ => Except.ok (),
    updateProductVariationStock := fun _ _ _ => Except.ok (),
    batchUpdateProducts := fun _ => Except.ok (),
    getOrders := Except.ok [],
    kubaccoUpdateStatus := fun _ _ => Except.ok () }

/-- Oracle on which the WooCommerce order-status update fails with a
non-2xx platform error. -/
def failWooOracle : PlatformOracle :=
  { okOracle with updateOrderStatus := fun _ _ => Except.error "WooCommerce API Error: 500 - {}" }

/-- Oracle on which fetching the orders page fails at the network level. -/
def failFetchOracle : PlatformOracle :=
  { okOracle with getOrders := Except.error "connect ECONNREFUSED" }

/-- A WooCommerce storefront integration. -/
def integWoo : IntegrationRow :=
  { id := "I1", platform_type := "WOOCOMMERCE", name := "shop", is_active := true,
    config_apiKey := none, config_webhookSecret := some "topsecret",
    sync_status := "CONNECTED", error_message := none, last_sync_at := none }

/-- A Kubacco wholesale-app integration. -/
def integKub : IntegrationRow :=
  { integWoo with
    id := "I2", platform_type := "KUBACCO_APP", config_apiKey := some "key",
    config_webhookSecret := none }

/-- An ONLINE-channel order linked to integration `I1` with external id 7. -/
def orderOnline : OrderRow :=
  { id := "O1", order_code := "C1", channel := "ONLINE", status := "PROCESSING",
    receiver := "r", address := "a", address_line2 := "", city := "c", state := "s",
    postal_code := "p", country := "US", email := "e", phone := "ph",
    order_total_raw := "1", notes := none, order_date := "d",
    external_order_id := some "7", integration_id := some "I1" }

/-- An outbound log row recording a WooCommerce push of `O1`. -/
def logWooRetry : OutboundLogRow :=
  { id := "L0", order_id := "O1", integration_id := "I1", platform_type := "WOOCOMMERCE",
    channel := "ONLINE", old_status := "PROCESSING", new_status := "SHIPPED",
    result := "FAILED", error_message := some "x", retry_count := 2,
    last_retry_at := none, synced_at := none }

/-- Billing address fixture. -/
def billFix : WooBillingAddress :=
  { first_name := "f", last_name := "l", address_1 := "a", address_2 := "",
    city := "c", state := "s", postcode := "p", country := "US", email := "e", phone := "ph" }

/-- Shipping address fixture. -/
def shipFix : WooShippingAddress :=
  { first_name := "f", last_name := "l", address_1 := "a", address_2 := "",
    city := "c", state := "s", postcode := "p", country := "US" }

/-- An external WooCommerce order with id 7. -/
def wooOrderFix : WooOrder :=
  { id := 7, order_key := "k", status := "processing", currency := "USD",
    date_created := "d", date_modified := "d", total := "1.00",
    billing := billFix, shipping := shipFix, line_items := [], customer_note := "" }

/-- A sync-enabled BUNDLE mapping on `I1` whose bundle has stock 0. -/
def mappingBundleZero : ProductMappingRow :=
  { id := "M1", integration_id := "I1", warehouse_product_id := "B1",
    warehouse_product_type := "BUNDLE", warehouse_variation_id := none,
    external_product_id := "11", external_variation_id := none, sku := none,
    sync_inventory := true, last_synced_at := none }

/-- A sync-enabled BUNDLE mapping on `I1` whose bundle row is absent. -/
def mappingBundleMissing : ProductMappingRow :=
  { mappingBundleZero with
    id := "M2", warehouse_product_id := "B2", external_product_id := "12" }

/-- A sync-enabled CIGAR mapping on `I1` without a warehouse variation id
(the resolver cannot interpret it). -/
def mappingCigarNoVariation : ProductMappingRow :=
  { mappingBundleMissing with warehouse_product_type := "CIGAR" }

/-- Store with an ONLINE order wired to the wholesale-app integration
(channel/platform mismatch). -/
def dbMismatch : Db :=
  { emptyDb with
    orders := [{ orderOnline with integration_id := some "I2" }],
    integrations := [integKub] }

/-- Store with the ONLINE order and its storefront integration. -/
def dbWoo : Db :=
  { emptyDb with orders := [orderOnline], integrations := [integWoo] }

/-- `dbWoo` plus the retryable outbound log at `retry_count = 2`. -/
def dbRetry : Db :=
  { dbWoo with outboundLogs := [logWooRetry] }

/-- `dbWoo` plus the outbound log at `retry_count = 0`. -/
def dbRetryZero : Db :=
  { dbWoo with outboundLogs := [{ logWooRetry with retry_count := 0 }] }

/-- `dbWoo` plus the outbound log already at the retry ceiling. -/
def dbRetryFive : Db :=
  { dbWoo with outboundLogs := [{ logWooRetry with retry_count := 5 }] }

/-- `dbWoo` plus a FAILED outbound row of the shape the service inserts
(platform `UNKNOWN`, empty integration id and channel). -/
def dbRetryUnknown : Db :=
  { dbWoo with
    outboundLogs := [{ logWooRetry with
      platform_type := "UNKNOWN", integration_id := "", channel := "" }] }

/-- One `retrySyncLog` state step against the always-failing storefront. -/
def retryFailStep (d : Db) : Db := (retrySyncLog d failWooOracle "T" "L0" true).db

/-- Store for the inventory scenario: two sync-enabled BUNDLE mappings, one
bundle at stock 0 and the other with no bundle row at all. -/
def dbInvMissing : Db :=
  { emptyDb with
    integrations := [integWoo],
    productMappings := [mappingBundleZero, mappingBundleMissing],
    bundles := [{ id := "B1", stock_quantity := 0 }] }

/-- Store for the amended inventory scenario: the second mapping is a CIGAR
mapping without a variation id, which the resolver cannot interpret. -/
def dbInvSkip : Db :=
  { emptyDb with
    integrations := [integWoo],
    productMappings := [mappingBundleZero, mappingCigarNoVariation],
    bundles := [{ id := "B1", stock_quantity := 0 }] }

/-- Store holding only the storefront integration. -/
def dbIntegOnly : Db :=
  { emptyDb with integrations := [integWoo] }

/-- Store holding the storefront integration, deactivated. -/
def dbIntegInactive : Db :=
  { emptyDb with integrations := [{ integWoo with is_active := false }] }

/-- A webhook request carrying NO signature header against `I1` (whose
secret is configured). -/
def reqNoSig : WebhookRequest :=
  { integrationId := "I1", signature := none, topic := some "product.updated",
    event := none, payloadRaw := "payload", payloadOrder := wooOrderFix }

/-- The same webhook request with a wrong signature. -/
def reqBadSig : WebhookRequest :=
  { reqNoSig with signature := some "nope" }

/-! ### Statement abbreviations and invariants -/

/-- The result object a successful WooCommerce retry returns (names the
literal for theorem statements). -/
def retryOkRes (db : Db) (order : OrderRow) (log : OutboundLogRow) : SyncResultRec :=
  { success := true, syncLogId := nextOutboundLogId db, orderId := order.id,
    platformType := "WOOCOMMERCE", newStatus := log.new_status, error := none }

/-- The SUCCESS outbound row a successful WooCommerce retry inserts (names
the literal for theorem statements). -/
def retrySuccessRow (db : Db) (now : String) (order : OrderRow) (integ : IntegrationRow)
    (log : OutboundLogRow) : OutboundLogRow :=
  { id := nextOutboundLogId db, order_id := order.id, integration_id := integ.id,
    platform_type := "WOOCOMMERCE", channel := order.channel,
    old_status := log.old_status, new_status := log.new_status,
    result := "SUCCESS", error_message := none, retry_count := 0,
    last_retry_at := none, synced_at := some now }

/-- Two outbound rows agreeing on the audit fields the retry updates never
touch (result, platform type, integration id, channel). -/
def SameAudit (r0 r : OutboundLogRow) : Prop :=
  r.result = r0.result ∧ r.platform_type = r0.platform_type ∧
  r.integration_id = r0.integration_id ∧ r.channel = r0.channel

/-- The store invariant of claim C10: every FAILED outbound row carries
platform type `UNKNOWN` with empty integration id and channel. -/
def FailedUnknownInv (db : Db) : Prop :=
  ∀ r ∈ db.outboundLogs, r.result = "FAILED" →
    r.platform_type = "UNKNOWN" ∧ r.integration_id = "" ∧ r.channel = ""

/-- Number of stored orders with the given dedup key
`(external order id, integration)`. -/
def countMatchingOrders (db : Db) (externalOrderId : Int) (integrationId : String) : Nat :=
  (db.orders.filter fun o =>
    o.external_order_id == some (toString externalOrderId) &&
    o.integration_id == some integrationId).length

/-- Error payload of an `Except`, `none` on success. -/
def exceptErr : Except String α → Option String
  | Except.error e => some e
  | Except.ok _ => none

/-! ### Helper lemmas -/

/-- Update-by-id commutes with lookup-by-id when the update preserves ids. -/
theorem find_of_map_update {α : Type} (idOf : α → String) (id : String) (f : α → α)
    (hf : ∀ r, idOf (f r) = idOf r) (l : List α) :
    (l.map fun r => if idOf r == id then f r else r).find? (fun r => idOf r == id) =
      ((l.find? fun r => idOf r == id).map f) := by
  induction l with
  | nil => rfl
  | cons x xs ih =>
    simp only [List.map_cons]
    by_cases h : (idOf x == id) = true
    · rw [if_pos h,
        List.find?_cons_of_pos (p := fun r => idOf r == id) _
          (show (idOf (f x) == id) = true by rw [hf]; exact h),
        List.find?_cons_of_pos (p := fun r => idOf r == id) _ h]
      rfl
    · rw [if_neg h, List.find?_cons_of_neg (p := fun r => idOf r == id) _ h,
        List.find?_cons_of_neg (p := fun r => idOf r == id) _ h, ih]

/-- An id-preserving row update leaves rows the predicate rejects unchanged. -/
theorem map_update_of_not_mem {α : Type} (idOf : α → String) (id : String) (f : α → α)
    (l : List α) (h : ∀ r ∈ l, idOf r ≠ id) :
    (l.map fun r => if idOf r == id then f r else r) = l := by
  induction l with
  | nil => rfl
  | cons x xs ih =>
    have hx : ¬(idOf x == id) = true := by
      simpa using h x (List.mem_cons_self x xs)
    simp only [List.map_cons, if_neg hx]
    rw [ih fun r hr => h r (List.mem_cons_of_mem x hr)]

/-- Mapping over an insertion commutes along a key-projected order. -/
theorem insertLe_map {α β : Type} (f : α → β) (le : β → β → Bool) (x : α) (l : List α) :
    (insertLe (fun p q => le (f p) (f q)) x l).map f = insertLe le (f x) (l.map f) := by
  induction l with
  | nil => rfl
  | cons y ys ih =>
    by_cases h : le (f x) (f y) <;> simp [insertLe, h, ih]

/-- Mapping over sorting commutes along a key-projected order. -/
theorem sortLe_map {α β : Type} (f : α → β) (le : β → β → Bool) (l : List α) :
    (sortLe (fun p q => le (f p) (f q)) l).map f = sortLe le (l.map f) := by
  induction l with
  | nil => rfl
  | cons x xs ih => simp [sortLe, ← ih, insertLe_map]

/-- Insertion adds exactly its element. -/
theorem mem_insertLe {α : Type} (le : α → α → Bool) (x y : α) (l : List α) :
    y ∈ insertLe le x l ↔ y = x ∨ y ∈ l := by
  induction l with
  | nil => simp [insertLe]
  | cons z zs ih =>
    by_cases h : le x z = true
    · simp [insertLe, if_pos h, List.mem_cons]
    · simp only [insertLe, if_neg h, List.mem_cons, ih]
      tauto

/-- Sorting preserves membership. -/
theorem mem_sortLe {α : Type} (le : α → α → Bool) (y : α) (l : List α) :
    y ∈ sortLe le l ↔ y ∈ l := by
  induction l with
  | nil => simp [sortLe]
  | cons x xs ih => simp [sortLe, mem_insertLe, ih]

/-- With pairwise-distinct keys, object access returns the entry's own value. -/
theorem jsLookup_eq_of_nodup (params : List (String × String)) (p : String × String)
    (hnd : (params.map Prod.fst).Nodup) (hp : p ∈ params) : jsLookup params p.1 = p.2 := by
  induction params with
  | nil => cases hp
  | cons x xs ih =>
    rcases List.mem_cons.mp hp with hpx | hpxs
    · subst hpx
      simp [jsLookup]
    · have hx : x.1 ≠ p.1 := by
        intro hcontra
        have : p.1 ∈ xs.map Prod.fst := List.mem_map.mpr ⟨p, hpxs, rfl⟩
        rw [List.map_cons, List.nodup_cons] at hnd
        exact hnd.1 (hcontra ▸ this)
      have hnd' : (xs.map Prod.fst).Nodup := by
        rw [List.map_cons, List.nodup_cons] at hnd
        exact hnd.2
      have hstep : jsLookup (x :: xs) p.1 = jsLookup xs p.1 := by
        unfold jsLookup
        rw [List.find?_cons_of_neg _ (by simpa using hx)]
      rw [hstep]
      exact ih hnd' hpxs

/-- Members of an audit-preserving row update trace back to members of the
original store with the same audit fields. -/
theorem mem_updateOutboundLog (d : Db) (id : String) {f : OutboundLogRow → OutboundLogRow}
    (r : OutboundLogRow) (hr : r ∈ (updateOutboundLog d id f).outboundLogs)
    (hf : ∀ r, SameAudit r (f r)) :
    ∃ r0 ∈ d.outboundLogs, SameAudit r0 r := by
  obtain ⟨r0, hr0, hre⟩ := List.mem_map.mp hr
  refine ⟨r0, hr0, ?_⟩
  rw [← hre]
  by_cases h : (r0.id == id) = true
  · rw [if_pos h]; exact hf r0
  · rw [if_neg h]; exact ⟨rfl, rfl, rfl, rfl⟩

/-- A WooCommerce branch success returns a success result and appends exactly
one SUCCESS outbound row. -/
theorem syncToWooCommerce_ok_shape
    (db : Db) (oracle : PlatformOracle) (now : String) (order : OrderRow) (integ : IntegrationRow)
    (newStatus oldStatus : String) (clientProvided : Bool) (res : SyncResultRec) (db1 : Db)
    (calls : List PlatformCall)
    (h : syncToWooCommerce db oracle now order integ newStatus oldStatus clientProvided =
      (Except.ok (res, db1), calls)) :
    res.success = true ∧
    ∃ row, db1.outboundLogs = db.outboundLogs ++ [row] ∧ row.result = "SUCCESS" := by
  unfold syncToWooCommerce at h
  split at h
  · simp at h
  · split at h
    · simp at h
    · split at h
      rename_i row0 db0 heq
      dsimp only at h
      split at h
      · simp at h
      · rw [Prod.mk.injEq] at h
        obtain ⟨h1, -⟩ := h
        rw [Except.ok.injEq, Prod.mk.injEq] at h1
        obtain ⟨hres, hdb⟩ := h1
        unfold createOutboundSyncLog at heq
        rw [Prod.mk.injEq] at heq
        obtain ⟨hrow, hdb0⟩ := heq
        refine ⟨by rw [← hres], row0, ?_, ?_⟩
        · rw [← hdb, ← hdb0, ← hrow]
        · rw [← hrow]

/-- A Kubacco branch success returns a success result and appends exactly one
SUCCESS outbound row. -/
theorem syncToKubacco_ok_shape
    (db : Db) (oracle : PlatformOracle) (now : String) (order : OrderRow) (integ : IntegrationRow)
    (newStatus oldStatus : String) (res : SyncResultRec) (db1 : Db)
    (calls : List PlatformCall)
    (h : syncToKubacco db oracle now order integ newStatus oldStatus =
      (Except.ok (res, db1), calls)) :
    res.success = true ∧
    ∃ row, db1.outboundLogs = db.outboundLogs ++ [row] ∧ row.result = "SUCCESS" := by
  unfold syncToKubacco at h
  split at h
  · simp at h
  · split at h
    · simp at h
    · split at h
      rename_i row0 db0 heq
      dsimp only at h
      split at h
      · simp at h
      · rw [Prod.mk.injEq] at h
        obtain ⟨h1, -⟩ := h
        rw [Except.ok.injEq, Prod.mk.injEq] at h1
        obtain ⟨hres, hdb⟩ := h1
        unfold createOutboundSyncLog at heq
        rw [Prod.mk.injEq] at heq
        obtain ⟨hrow, hdb0⟩ := heq
        refine ⟨by rw [← hres], row0, ?_, ?_⟩
        · rw [← hdb, ← hdb0, ← hrow]
        · rw [← hrow]

/-- A non-thrown status-sync attempt returns a success result and appends
exactly one SUCCESS outbound row. -/
theorem syncStatusAttempt_ok_shape
    (db : Db) (oracle : PlatformOracle) (now orderId newStatus : String) (clientProvided : Bool)
    (res : SyncResultRec) (db1 : Db) (calls : List PlatformCall)
    (h : syncStatusAttempt db oracle now orderId newStatus clientProvided =
      (Except.ok (res, db1), calls)) :
    res.success = true ∧
    ∃ row, db1.outboundLogs = db.outboundLogs ++ [row] ∧ row.result = "SUCCESS" := by
  unfold syncStatusAttempt at h
  split at h
  · simp at h
  · split at h
    · simp at h
    · split at h
      · simp at h
      · split at h
        · exact syncToWooCommerce_ok_shape _ _ _ _ _ _ _ _ _ _ _ h
        · split at h
          · exact syncToKubacco_ok_shape _ _ _ _ _ _ _ _ _ _ h
          · simp at h

/-- Every outbound row left by a non-thrown retry attempt either descends
from a row of the original store with the same audit fields, or is a SUCCESS
row. -/
theorem retrySyncAttempt_ok_members
    (db : Db) (oracle : PlatformOracle) (now syncLogId : String) (clientProvided : Bool)
    (res : SyncResultRec) (db2 : Db) (calls : List PlatformCall)
    (h : retrySyncAttempt db oracle now syncLogId clientProvided = (Except.ok (res, db2), calls)) :
    ∀ r ∈ db2.outboundLogs, (∃ r0 ∈ db.outboundLogs, SameAudit r0 r) ∨ r.result = "SUCCESS" := by
  unfold retrySyncAttempt at h
  split at h
  · simp at h
  · split at h
    · simp at h
    · split at h
      · simp at h
      · split at h
        · simp at h
        · dsimp only at h
          split at h
          · simp at h
          · rename_i res0 db1 calls0 heqBranch
            rw [Prod.mk.injEq] at h
            obtain ⟨h1, -⟩ := h
            rw [Except.ok.injEq, Prod.mk.injEq] at h1
            obtain ⟨-, hdb2⟩ := h1
            have hshape : ∃ row, db1.outboundLogs = db.outboundLogs ++ [row] ∧
                row.result = "SUCCESS" := by
              split at heqBranch
              · exact (syncToWooCommerce_ok_shape _ _ _ _ _ _ _ _ _ _ _ heqBranch).2
              · split at heqBranch
                · exact (syncToKubacco_ok_shape _ _ _ _ _ _ _ _ _ _ heqBranch).2
                · simp at heqBranch
            obtain ⟨row, hrow, hrowS⟩ := hshape
            intro r hr
            rw [← hdb2] at hr
            obtain ⟨r0, hr0, hAud⟩ :=
              mem_updateOutboundLog _ _ r hr (fun r => ⟨rfl, rfl, rfl, rfl⟩)
            rw [hrow] at hr0
            rcases List.mem_append.mp hr0 with hin | hnew
            · exact Or.inl ⟨r0, hin, hAud⟩
            · right
              rw [List.mem_singleton] at hnew
              rw [hAud.1, hnew]
              exact hrowS

/-- `getWarehouseInventory` reads only the inventory tables. -/
theorem getWarehouseInventory_congr (d d' : Db) (pid ptype : String) (vid : Option String)
    (hc : d'.cigarInventory = d.cigarInventory) (hb : d'.bundles = d.bundles)
    (ha : d'.accessories = d.accessories) :
    getWarehouseInventory d' pid ptype vid = getWarehouseInventory d pid ptype vid := by
  unfold getWarehouseInventory
  rw [hc, hb, ha]

/-- One inventory-loop step on a mapping whose warehouse lookup misses:
counted as skipped with the explanatory message. -/
theorem invStep_skip (oracle : PlatformOracle) (now : String) (st : InvLoopState)
    (mapping : ProductMappingRow)
    (h : getWarehouseInventory st.db mapping.warehouse_product_id
      mapping.warehouse_product_type mapping.warehouse_variation_id = none) :
    invStep oracle now st mapping =
      { st with results := { st.results with
          skipped := st.results.skipped + 1,
          errors := st.results.errors ++
            ["Product " ++ mapping.warehouse_product_id ++ " not found in warehouse"] } } := by
  unfold invStep
  rw [h]

/-- One inventory-loop step on a resolvable simple-product mapping: counted
as synced, stamped, and batched for the bulk product update. -/
theorem invStep_simple (oracle : PlatformOracle) (now : String) (st : InvLoopState)
    (mapping : ProductMappingRow) (n : Nat)
    (h : getWarehouseInventory st.db mapping.warehouse_product_id
      mapping.warehouse_product_type mapping.warehouse_variation_id = some n)
    (hSimple : mapping.external_variation_id = none) :
    invStep oracle now st mapping =
      { st with
        results := { st.results with synced := st.results.synced + 1 },
        db := updateProductMappingRow st.db mapping.id fun m =>
          { m with last_synced_at := some now },
        updates := st.updates ++ [(jsParseInt mapping.external_product_id, n)] } := by
  unfold invStep
  rw [h]
  dsimp only
  rw [hSimple]
  rfl

/-- `processWebhookOrder` never touches the webhook queue. -/
theorem processWebhookOrder_webhookQueue (d : Db) (now integrationId : String)
    (woo : WooOrder) :
    (processWebhookOrder d now integrationId woo).2.webhookQueue = d.webhookQueue := by
  have hImp : ∀ (d0 : Db),
      (importOrder d0 woo integrationId).2.webhookQueue = d0.webhookQueue := by
    intro d0
    unfold importOrder
    split <;> rfl
  exact hImp _

/-! ### Claim C1 — channel segregation -/

/-- C1: for every order and integration on record, if the order's channel does
not map to the integration's platform type under the fixed mapping
{WHOLESALE → KUBACCO_APP (wholesale app), ONLINE → WOOCOMMERCE (storefront)},
then `syncStatusToExternalPlatform` always fails: no platform status-update
call is attempted, and the only outbound log row written is a single FAILED
record (in particular no row with result SUCCESS). -/
theorem channel_mismatch_sync_always_fails
    (db : Db) (oracle : PlatformOracle) (now orderId newStatus : String)
    (clientProvided : Bool) (order : OrderRow) (integ : IntegrationRow)
    (hOrder : findOrder db orderId = some order)
    (hInteg : orderIntegration db order = some integ)
    (hMis : expectedPlatformForChannel order.channel ≠ some integ.platform_type) :
    (syncStatusToExternalPlatform db oracle now orderId newStatus clientProvided).res.success = false ∧
    (syncStatusToExternalPlatform db oracle now orderId newStatus clientProvided).calls = [] ∧
    ∃ row, (syncStatusToExternalPlatform db oracle now orderId newStatus clientProvided).db.outboundLogs =
        db.outboundLogs ++ [row] ∧ row.result = "FAILED" := by
  have hAttempt : ∃ e, syncStatusAttempt db oracle now orderId newStatus clientProvided =
      (Except.error e, []) := by
    simp only [syncStatusAttempt, hOrder, hInteg, validateChannelSegregation, if_neg hMis]
    exact ⟨_, rfl⟩
  obtain ⟨e, hAttempt⟩ := hAttempt
  unfold syncStatusToExternalPlatform
  rw [hAttempt]
  exact ⟨rfl, rfl, _, rfl, rfl⟩

/-- Witness for C1 at a concrete store: an ONLINE order wired to the
wholesale-app integration. -/
theorem channel_mismatch_sync_always_fails_witness :
    (syncStatusToExternalPlatform dbMismatch okOracle "T" "O1" "SHIPPED" true).res.success = false ∧
    (syncStatusToExternalPlatform dbMismatch okOracle "T" "O1" "SHIPPED" true).calls = [] ∧
    ∃ row, (syncStatusToExternalPlatform dbMismatch okOracle "T" "O1" "SHIPPED" true).db.outboundLogs =
        dbMismatch.outboundLogs ++ [row] ∧ row.result = "FAILED" :=
  channel_mismatch_sync_always_fails dbMismatch okOracle "T" "O1" "SHIPPED" true
    { orderOnline with integration_id := some "I2" } integKub (by decide) (by decide) (by decide)

/-! ### Claim C2 — retry ceiling -/

/-- Counterexample to C2 as stated: on an outbound log whose five previous
retry attempts all failed, the stored `retry_count` is still 1 (failed
retries do not increment it), so the SIXTH retry attempt is not rejected —
it performs a platform status-update call. -/
theorem retry_sixth_attempt_counterexample :
    (findOutboundLog
        (retryFailStep (retryFailStep (retryFailStep (retryFailStep (retryFailStep dbRetryZero)))))
        "L0").map OutboundLogRow.retry_count = some 1 ∧
    (retrySyncLog
        (retryFailStep (retryFailStep (retryFailStep (retryFailStep (retryFailStep dbRetryZero)))))
        failWooOracle "T" "L0" true).calls =
      [PlatformCall.wooUpdateOrderStatus 7 "completed"] := by decide

/-- C2 as amended: for every outbound sync log whose stored retry_count is at
least 5, `retrySyncLog` rejects the retry before any platform call and
returns a failure result; but because failed retries leave the stored count
unchanged (except 0 → 1), "the 6th retry attempt" is only guaranteed to be
rejected when the count has actually reached 5. -/
theorem retry_ceiling_rejects_at_five
    (db : Db) (oracle : PlatformOracle) (now syncLogId : String) (clientProvided : Bool)
    (log : OutboundLogRow)
    (hLog : findOutboundLog db syncLogId = some log)
    (hCeil : log.retry_count ≥ 5) :
    (retrySyncLog db oracle now syncLogId clientProvided).calls = [] ∧
    (retrySyncLog db oracle now syncLogId clientProvided).res.success = false ∧
    (retrySyncLog db oracle now syncLogId clientProvided).res.error =
      some "Maximum retry attempts exceeded (5)" := by
  have hAttempt : retrySyncAttempt db oracle now syncLogId clientProvided =
      (Except.error "Maximum retry attempts exceeded (5)", []) := by
    simp only [retrySyncAttempt, hLog, if_pos hCeil]
  unfold retrySyncLog
  rw [hAttempt]
  exact ⟨rfl, rfl, rfl⟩

/-- Witness for the amended C2 at a concrete store whose log sits at the
ceiling. -/
theorem retry_ceiling_rejects_at_five_witness :
    (retrySyncLog dbRetryFive okOracle "T" "L0" true).calls = [] ∧
    (retrySyncLog dbRetryFive okOracle "T" "L0" true).res.success = false ∧
    (retrySyncLog dbRetryFive okOracle "T" "L0" true).res.error =
      some "Maximum retry attempts exceeded (5)" :=
  retry_ceiling_rejects_at_five dbRetryFive okOracle "T" "L0" true
    { logWooRetry with retry_count := 5 } (by decide) (by decide)

/-! ### Claim C3 — retry below the ceiling -/

/-- Counterexample to C3 as stated, at a log with `retry_count = 2` (below
the ceiling): a FAILED re-push leaves its retry_count at 2 instead of
incrementing it to 3, and a successful re-push inserts an additional
outbound log row (two rows where one existed). -/
theorem retry_in_place_counterexample :
    logWooRetry.retry_count = 2 ∧
    ((retrySyncLog dbRetry failWooOracle "T" "L0" true).db.outboundLogs.map
      OutboundLogRow.retry_count = [2]) ∧
    ((retrySyncLog dbRetry okOracle "T" "L0" true).db.outboundLogs.length = 2) := by decide

/-- C3 as amended (WooCommerce branch): a retry below the ceiling repeats the
platform branch with the log's recorded old/new statuses.  On a SUCCESSFUL
re-push the branch inserts an additional SUCCESS outbound row (carrying the
recorded statuses) and the original row's retry_count is incremented by one
with the last-retry time stamped.  On a FAILED re-push no new row is
inserted, the original row's last-retry time and error message are updated,
but its retry_count is NOT incremented: it is set to itself when nonzero and
to 1 when zero (the `retry_count || 0 + 1` precedence slip). -/
theorem retry_below_ceiling_updates
    (db : Db) (oracle : PlatformOracle) (now syncLogId : String)
    (log : OutboundLogRow) (order : OrderRow) (integ : IntegrationRow) (extId : Int)
    (hLog : findOutboundLog db syncLogId = some log)
    (hCeil : log.retry_count < 5)
    (hPlat : log.platform_type = "WOOCOMMERCE")
    (hOrder : findOrder db log.order_id = some order)
    (hInteg : findIntegration db log.integration_id = some integ)
    (hExt : jsParseIntOpt order.external_order_id = some extId)
    (hFresh : nextOutboundLogId db ≠ syncLogId) :
    (oracle.updateOrderStatus extId (mapToWooCommerceStatus log.new_status) = Except.ok () →
      (retrySyncLog db oracle now syncLogId true).calls =
        [PlatformCall.wooUpdateOrderStatus extId (mapToWooCommerceStatus log.new_status)] ∧
      (retrySyncLog db oracle now syncLogId true).db.outboundLogs.length =
        db.outboundLogs.length + 1 ∧
      findOutboundLog (retrySyncLog db oracle now syncLogId true).db syncLogId =
        some { log with retry_count := log.retry_count + 1, last_retry_at := some now } ∧
      (retrySyncLog db oracle now syncLogId true).db.outboundLogs.getLast? =
        some (retrySuccessRow db now order integ log) ∧
      (retrySyncLog db oracle now syncLogId true).res.success = true) ∧
    (∀ e, oracle.updateOrderStatus extId (mapToWooCommerceStatus log.new_status) = Except.error e →
      (retrySyncLog db oracle now syncLogId true).calls =
        [PlatformCall.wooUpdateOrderStatus extId (mapToWooCommerceStatus log.new_status)] ∧
      (retrySyncLog db oracle now syncLogId true).db.outboundLogs.length =
        db.outboundLogs.length ∧
      findOutboundLog (retrySyncLog db oracle now syncLogId true).db syncLogId =
        some { log with
          retry_count := if log.retry_count ≠ 0 then log.retry_count else 1,
          last_retry_at := some now, error_message := some e } ∧
      (retrySyncLog db oracle now syncLogId true).res.success = false) := by
  constructor
  · intro hOk
    have hAttempt : retrySyncAttempt db oracle now syncLogId true =
        (Except.ok (retryOkRes db order log,
          updateOutboundLog
            { db with outboundLogs := db.outboundLogs ++ [retrySuccessRow db now order integ log] }
            syncLogId fun r =>
              { r with retry_count := log.retry_count + 1, last_retry_at := some now }),
         [PlatformCall.wooUpdateOrderStatus extId (mapToWooCommerceStatus log.new_status)]) := by
      simp only [retrySyncAttempt, hLog]
      rw [if_neg (show ¬ log.retry_count ≥ 5 by omega)]
      simp only [hOrder, hInteg]
      rw [if_pos (show (log.platform_type == "WOOCOMMERCE") = true by simp [hPlat])]
      simp only [syncToWooCommerce, hExt, hOk, Bool.not_true, createOutboundSyncLog]
      rfl
    unfold retrySyncLog
    rw [hAttempt]
    refine ⟨rfl, ?_, ?_, ?_, rfl⟩
    · simp [updateOutboundLog]
    · show ((db.outboundLogs ++ [retrySuccessRow db now order integ log]).map
        fun r => if r.id == syncLogId then
          { r with retry_count := log.retry_count + 1, last_retry_at := some now } else r).find?
          (fun l => l.id == syncLogId) =
        some { log with retry_count := log.retry_count + 1, last_retry_at := some now }
      rw [find_of_map_update OutboundLogRow.id syncLogId
        (fun r => { r with retry_count := log.retry_count + 1, last_retry_at := some now })
        (fun r => rfl), List.find?_append]
      rw [show (db.outboundLogs.find? fun l => l.id == syncLogId) = some log from hLog]
      rfl
    · show ((db.outboundLogs ++ [retrySuccessRow db now order integ log]).map
        fun r => if r.id == syncLogId then
          { r with retry_count := log.retry_count + 1, last_retry_at := some now } else r).getLast? =
        some (retrySuccessRow db now order integ log)
      rw [List.map_append]
      simp only [List.map_cons, List.map_nil]
      rw [if_neg (show ¬ ((retrySuccessRow db now order integ log).id == syncLogId) = true by
        simpa [retrySuccessRow] using hFresh)]
      exact List.getLast?_concat _
  · intro e hE
    have hAttempt : retrySyncAttempt db oracle now syncLogId true =
        (Except.error e,
         [PlatformCall.wooUpdateOrderStatus extId (mapToWooCommerceStatus log.new_status)]) := by
      simp only [retrySyncAttempt, hLog]
      rw [if_neg (show ¬ log.retry_count ≥ 5 by omega)]
      simp only [hOrder, hInteg]
      rw [if_pos (show (log.platform_type == "WOOCOMMERCE") = true by simp [hPlat])]
      simp only [syncToWooCommerce, hExt, hE, Bool.not_true]
      rfl
    unfold retrySyncLog
    rw [hAttempt, hLog]
    refine ⟨rfl, ?_, ?_, rfl⟩
    · simp [updateOutboundLog]
    · show (db.outboundLogs.map fun r => if r.id == syncLogId then
          { r with
            retry_count := if log.retry_count ≠ 0 then log.retry_count else 1,
            last_retry_at := some now, error_message := some e } else r).find?
          (fun l => l.id == syncLogId) =
        some { log with
          retry_count := if log.retry_count ≠ 0 then log.retry_count else 1,
          last_retry_at := some now, error_message := some e }
      rw [find_of_map_update OutboundLogRow.id syncLogId
        (fun r => { r with
          retry_count := if log.retry_count ≠ 0 then log.retry_count else 1,
          last_retry_at := some now, error_message := some e })
        (fun r => rfl)]
      rw [show (db.outboundLogs.find? fun l => l.id == syncLogId) = some log from hLog]
      rfl

/-- Witness for the amended C3: a successful retry at the concrete store. -/
theorem retry_below_ceiling_updates_witness :
    (retrySyncLog dbRetry okOracle "T" "L0" true).calls =
      [PlatformCall.wooUpdateOrderStatus 7 "completed"] ∧
    (retrySyncLog dbRetry okOracle "T" "L0" true).db.outboundLogs.length =
      dbRetry.outboundLogs.length + 1 ∧
    findOutboundLog (retrySyncLog dbRetry okOracle "T" "L0" true).db "L0" =
      some { logWooRetry with retry_count := 3, last_retry_at := some "T" } ∧
    (retrySyncLog dbRetry okOracle "T" "L0" true).db.outboundLogs.getLast? =
      some (retrySuccessRow dbRetry "T" orderOnline integWoo logWooRetry) ∧
    (retrySyncLog dbRetry okOracle "T" "L0" true).res.success = true :=
  (retry_below_ceiling_updates dbRetry okOracle "T" "L0" logWooRetry orderOnline integWoo 7
    (by decide) (by decide) (by decide) (by decide) (by decide) (by decide) (by decide)).1 rfl

/-! ### Claim C4 — failure handling of the status sync entry point -/

/-- Counterexample to C4 as stated: here the order and integration lookups
both succeed (the integration is the WooCommerce storefront), the platform
push itself fails, and the FAILED row still records platform type `UNKNOWN`
with empty channel and integration id — not the actual platform type. -/
theorem failure_row_unknown_counterexample :
    (findOrder dbWoo "O1").isSome = true ∧
    (orderIntegration dbWoo orderOnline).isSome = true ∧
    (syncStatusToExternalPlatform dbWoo failWooOracle "T" "O1" "SHIPPED" true).res.success = false ∧
    ((syncStatusToExternalPlatform dbWoo failWooOracle "T" "O1" "SHIPPED" true).db.outboundLogs.map
      fun r => (r.platform_type, r.channel, r.integration_id, r.result)) =
      [("UNKNOWN", "", "", "FAILED")] := by decide

/-- C4 as amended: on any exception `syncStatusToExternalPlatform` still
writes exactly one FAILED outbound row and returns a structured failure
result instead of throwing — but the row ALWAYS carries platform type
`UNKNOWN` with empty integration id and channel, regardless of whether the
order/integration lookup failed or a later step did. -/
theorem sync_failure_always_writes_unknown_row
    (db : Db) (oracle : PlatformOracle) (now orderId newStatus : String) (clientProvided : Bool)
    (hFail : (syncStatusToExternalPlatform db oracle now orderId newStatus clientProvided).res.success
      = false) :
    ∃ row,
      (syncStatusToExternalPlatform db oracle now orderId newStatus clientProvided).db.outboundLogs =
        db.outboundLogs ++ [row] ∧
      row.result = "FAILED" ∧ row.platform_type = "UNKNOWN" ∧ row.integration_id = "" ∧
      row.channel = "" ∧
      row.error_message =
        (syncStatusToExternalPlatform db oracle now orderId newStatus clientProvided).res.error ∧
      (syncStatusToExternalPlatform db oracle now orderId newStatus clientProvided).res.platformType =
        "UNKNOWN" := by
  rcases hA : syncStatusAttempt db oracle now orderId newStatus clientProvided with ⟨exc, calls⟩
  cases exc with
  | ok p =>
    obtain ⟨res, db1⟩ := p
    have hsucc := (syncStatusAttempt_ok_shape db oracle now orderId newStatus clientProvided
      res db1 calls hA).1
    unfold syncStatusToExternalPlatform at hFail
    rw [hA] at hFail
    simp only at hFail
    rw [hsucc] at hFail
    simp at hFail
  | error e =>
    unfold syncStatusToExternalPlatform
    rw [hA]
    exact ⟨_, rfl, rfl, rfl, rfl, rfl, rfl, rfl⟩

/-- Witness for the amended C4: a platform-level failure after both lookups
succeeded. -/
theorem sync_failure_always_writes_unknown_row_witness :
    ∃ row,
      (syncStatusToExternalPlatform dbWoo failWooOracle "T" "O1" "SHIPPED" true).db.outboundLogs =
        dbWoo.outboundLogs ++ [row] ∧
      row.result = "FAILED" ∧ row.platform_type = "UNKNOWN" ∧ row.integration_id = "" ∧
      row.channel = "" ∧
      row.error_message =
        (syncStatusToExternalPlatform dbWoo failWooOracle "T" "O1" "SHIPPED" true).res.error ∧
      (syncStatusToExternalPlatform dbWoo failWooOracle "T" "O1" "SHIPPED" true).res.platformType =
        "UNKNOWN" :=
  sync_failure_always_writes_unknown_row dbWoo failWooOracle "T" "O1" "SHIPPED" true (by decide)

/-! ### Claim C10 — FAILED rows are UNKNOWN and unretryable -/

/-- C10: starting from any store in which every FAILED outbound row carries
platform type `UNKNOWN` (and empty integration id/channel), both status-sync
entry points preserve that invariant — the only FAILED rows ever inserted are
the catch-block rows with platform `UNKNOWN` — and consequently a retry of
any FAILED outbound log row always fails without contacting either platform,
so a failed status push can never be successfully retried. -/
theorem failed_rows_unknown_invariant
    (db : Db) (oracle : PlatformOracle) (now orderId newStatus syncLogId : String)
    (clientProvided : Bool) (hInv : FailedUnknownInv db) :
    FailedUnknownInv (syncStatusToExternalPlatform db oracle now orderId newStatus clientProvided).db ∧
    FailedUnknownInv (retrySyncLog db oracle now syncLogId clientProvided).db ∧
    (∀ log, findOutboundLog db syncLogId = some log → log.result = "FAILED" →
      (retrySyncLog db oracle now syncLogId clientProvided).res.success = false ∧
      (retrySyncLog db oracle now syncLogId clientProvided).calls = []) := by
  refine ⟨?_, ?_, ?_⟩
  · rcases hA : syncStatusAttempt db oracle now orderId newStatus clientProvided with ⟨exc, calls⟩
    cases exc with
    | ok p =>
      obtain ⟨res, db1⟩ := p
      obtain ⟨row, hrow, hS⟩ := (syncStatusAttempt_ok_shape _ _ _ _ _ _ _ _ _ hA).2
      unfold syncStatusToExternalPlatform FailedUnknownInv
      rw [hA]
      intro r hr hFailed
      dsimp only at hr
      rw [hrow] at hr
      rcases List.mem_append.mp hr with hin | hnew
      · exact hInv r hin hFailed
      · rw [List.mem_singleton] at hnew
        rw [hnew, hS] at hFailed
        exact absurd hFailed (by decide)
    | error e =>
      unfold syncStatusToExternalPlatform FailedUnknownInv
      rw [hA]
      intro r hr hFailed
      dsimp only at hr
      rcases List.mem_append.mp hr with hin | hnew
      · exact hInv r hin hFailed
      · rw [List.mem_singleton] at hnew
        rw [hnew]
        exact ⟨rfl, rfl, rfl⟩
  · rcases hA : retrySyncAttempt db oracle now syncLogId clientProvided with ⟨exc, calls⟩
    cases exc with
    | ok p =>
      obtain ⟨res, db2⟩ := p
      have hmem := retrySyncAttempt_ok_members _ _ _ _ _ _ _ _ hA
      unfold retrySyncLog FailedUnknownInv
      rw [hA]
      intro r hr hFailed
      rcases hmem r hr with ⟨r0, hr0, hAud⟩ | hS
      · have h0 := hInv r0 hr0 (by rw [← hAud.1]; exact hFailed)
        exact ⟨by rw [hAud.2.1]; exact h0.1, by rw [hAud.2.2.1]; exact h0.2.1,
          by rw [hAud.2.2.2]; exact h0.2.2⟩
      · rw [hS] at hFailed
        exact absurd hFailed (by decide)
    | error e =>
      unfold retrySyncLog FailedUnknownInv
      rw [hA]
      intro r hr hFailed
      dsimp only at hr
      obtain ⟨r0, hr0, hAud⟩ :=
        mem_updateOutboundLog db syncLogId r hr (fun r => ⟨rfl, rfl, rfl, rfl⟩)
      have h0 := hInv r0 hr0 (by rw [← hAud.1]; exact hFailed)
      exact ⟨by rw [hAud.2.1]; exact h0.1, by rw [hAud.2.2.1]; exact h0.2.1,
        by rw [hAud.2.2.2]; exact h0.2.2⟩
  · intro log hLog hFailed
    have hUnk : log.platform_type = "UNKNOWN" :=
      (hInv log (List.mem_of_find?_eq_some hLog) hFailed).1
    have hAtt : ∃ e, retrySyncAttempt db oracle now syncLogId clientProvided =
        (Except.error e, []) := by
      simp only [retrySyncAttempt, hLog]
      by_cases h5 : log.retry_count ≥ 5
      · rw [if_pos h5]; exact ⟨_, rfl⟩
      · rw [if_neg h5]
        cases hO : findOrder db log.order_id with
        | none => exact ⟨_, rfl⟩
        | some order =>
          cases hI : findIntegration db log.integration_id with
          | none => exact ⟨_, rfl⟩
          | some integ =>
            dsimp only
            rw [if_neg (show ¬ (log.platform_type == "WOOCOMMERCE") = true by
                rw [hUnk]; decide),
              if_neg (show ¬ (log.platform_type == "KUBACCO_APP") = true by
                rw [hUnk]; decide)]
            exact ⟨_, rfl⟩
    obtain ⟨e, hAtt⟩ := hAtt
    unfold retrySyncLog
    rw [hAtt]
    exact ⟨rfl, rfl⟩

/-- Witness for C10 at a concrete store holding one FAILED/UNKNOWN row. -/
theorem failed_rows_unknown_invariant_witness :
    FailedUnknownInv (syncStatusToExternalPlatform dbRetryUnknown okOracle "T" "O1" "SHIPPED" true).db ∧
    FailedUnknownInv (retrySyncLog dbRetryUnknown okOracle "T" "L0" true).db ∧
    (∀ log, findOutboundLog dbRetryUnknown "L0" = some log → log.result = "FAILED" →
      (retrySyncLog dbRetryUnknown okOracle "T" "L0" true).res.success = false ∧
      (retrySyncLog dbRetryUnknown okOracle "T" "L0" true).calls = []) :=
  failed_rows_unknown_invariant dbRetryUnknown okOracle "T" "O1" "SHIPPED" "L0" true
    (by unfold FailedUnknownInv; decide)

/-! ### Claim C5 — import idempotence -/

/-- C5: importing an external order that is not yet stored and then importing
the same external order id against the same integration a second time leaves
exactly one stored order with that dedup key; the second import changes no
order row, returns the "Order already imported" outcome, and the batch loop
classifies it as skipped (not failed). -/
theorem import_idempotent
    (db : Db) (woo : WooOrder) (integrationId : String)
    (hNone : countMatchingOrders db woo.id integrationId = 0) :
    countMatchingOrders
      (importOrder (importOrder db woo integrationId).2 woo integrationId).2
      woo.id integrationId = 1 ∧
    (importOrder (importOrder db woo integrationId).2 woo integrationId).2.orders =
      (importOrder db woo integrationId).2.orders ∧
    (importOrder (importOrder db woo integrationId).2 woo integrationId).1.success = false ∧
    (importOrder (importOrder db woo integrationId).2 woo integrationId).1.error =
      some "Order already imported" ∧
    importClassify (importOrder (importOrder db woo integrationId).2 woo integrationId).1 =
      "skipped" := by
  have hFilterNil : db.orders.filter (fun o =>
      o.external_order_id == some (toString woo.id) &&
      o.integration_id == some integrationId) = [] :=
    List.length_eq_zero.mp hNone
  have hFindNone : db.orders.find? (fun o =>
      o.external_order_id == some (toString woo.id) &&
      o.integration_id == some integrationId) = none := by
    rw [List.find?_eq_none]
    intro x hx
    have := List.filter_eq_nil_iff.mp hFilterNil x hx
    simpa using this
  have hExists0 : orderExists db woo.id integrationId = false := by
    unfold orderExists
    rw [hFindNone]
    rfl
  have hImp1 : importOrder db woo integrationId =
      ({ success := true, orderId := some (nextOrderId db), externalOrderId := woo.id,
         error := none },
       { db with
         orders := db.orders ++ [importedOrderRow (nextOrderId db) woo integrationId],
         orderItems := db.orderItems ++ woo.line_items.map (importedItemRow (nextOrderId db)) }) := by
    unfold importOrder
    rw [if_neg (by rw [hExists0]; exact Bool.false_ne_true)]
  have hPred : ((importedOrderRow (nextOrderId db) woo integrationId).external_order_id ==
        some (toString woo.id) &&
      (importedOrderRow (nextOrderId db) woo integrationId).integration_id ==
        some integrationId) = true := by
    simp [importedOrderRow]
  have hExists1 : orderExists (importOrder db woo integrationId).2 woo.id integrationId = true := by
    rw [hImp1]
    unfold orderExists
    dsimp only
    rw [List.find?_append, hFindNone]
    rw [List.find?_cons_of_pos
      (p := fun (o : OrderRow) => o.external_order_id == some (toString woo.id) &&
        o.integration_id == some integrationId) _ hPred]
    rfl
  have hImpSkip : ∀ d : Db, orderExists d woo.id integrationId = true →
      importOrder d woo integrationId =
        ({ success := false, orderId := none, externalOrderId := woo.id,
           error := some "Order already imported" }, d) := by
    intro d hd
    unfold importOrder
    rw [if_pos hd]
  have hImp2 := hImpSkip _ hExists1
  refine ⟨?_, ?_, ?_, ?_, ?_⟩
  · rw [hImp2]
    dsimp only
    rw [hImp1]
    unfold countMatchingOrders
    dsimp only
    rw [List.filter_append, hFilterNil]
    simp [hPred]
  · rw [hImp2]
  · rw [hImp2]
  · rw [hImp2]
  · rw [hImp2]
    rfl

/-- Witness for C5 at a concrete store and order payload. -/
theorem import_idempotent_witness :
    countMatchingOrders
      (importOrder (importOrder dbIntegOnly wooOrderFix "I1").2 wooOrderFix "I1").2 7 "I1" = 1 ∧
    (importOrder (importOrder dbIntegOnly wooOrderFix "I1").2 wooOrderFix "I1").2.orders =
      (importOrder dbIntegOnly wooOrderFix "I1").2.orders ∧
    (importOrder (importOrder dbIntegOnly wooOrderFix "I1").2 wooOrderFix "I1").1.success = false ∧
    (importOrder (importOrder dbIntegOnly wooOrderFix "I1").2 wooOrderFix "I1").1.error =
      some "Order already imported" ∧
    importClassify (importOrder (importOrder dbIntegOnly wooOrderFix "I1").2 wooOrderFix "I1").1 =
      "skipped" :=
  import_idempotent dbIntegOnly wooOrderFix "I1" (by decide)

/-! ### Claim C6 — request signature algorithm -/

set_option maxRecDepth 1000000 in
/-- Counterexample to C6 as stated: the source sorts entries by RAW key, not
by percent-encoded key.  On the parameter set of keys "a b" and "a!" the two
orders differ (" " sorts before "!", but "%20" sorts after "!"), so the
signature the code computes differs from the one the claimed
encoded-key-sorted algorithm computes. -/
theorem oauth_signature_encoded_sort_counterexample :
    sortedParamString [("a b", "1"), ("a!", "2")] = "a%20b=1&a!=2" ∧
    specClaimedParamString [("a b", "1"), ("a!", "2")] = "a!=2&a%20b=1" ∧
    generateOAuthSignature "sec" "GET" "http://x" [("a b", "1"), ("a!", "2")] ≠
      specClaimedOAuthSignature "sec" "GET" "http://x" [("a b", "1"), ("a!", "2")] := by decide

/-- C6 as amended: for every method, URL, parameter set (with distinct keys,
as JavaScript object keys are) and consumer secret, the signature is computed
by percent-encoding every key and value, sorting entries lexicographically by
RAW (unencoded) key, building the base string
`METHOD&enc(URL)&enc(sorted_param_string)`, HMAC-SHA256 under key
`enc(consumer_secret)+"&"`, and base64-encoding the digest. -/
theorem oauth_signature_amended
    (consumerSecret method url : String) (params : List (String × String))
    (hnd : (params.map Prod.fst).Nodup) :
    generateOAuthSignature consumerSecret method url params =
      specAmendedOAuthSignature consumerSecret method url params := by
  have hPS : sortedParamString params = specAmendedParamString params := by
    unfold sortedParamString specAmendedParamString
    dsimp only
    rw [← sortLe_map Prod.fst jsStrLe params, List.map_map]
    congr 1
    apply List.map_congr_left
    intro p hp
    have hpmem : p ∈ params := (mem_sortLe _ p params).mp hp
    show encodeURIComponent p.1 ++ "=" ++ encodeURIComponent (jsLookup params p.1) = _
    rw [jsLookup_eq_of_nodup params p hnd hpmem]
  unfold generateOAuthSignature specAmendedOAuthSignature signatureBaseString
  rw [hPS]

/-- Witness for the amended C6 at a concrete parameter set. -/
theorem oauth_signature_amended_witness :
    ([("a b", "1"), ("a!", "2")].map Prod.fst).Nodup ∧
    generateOAuthSignature "sec" "GET" "http://x" [("a b", "1"), ("a!", "2")] =
      specAmendedOAuthSignature "sec" "GET" "http://x" [("a b", "1"), ("a!", "2")] :=
  ⟨by decide, oauth_signature_amended "sec" "GET" "http://x" _ (by decide)⟩

/-! ### Claim C7 — inventory export scenario -/

/-- Counterexample to C7 as stated: in store `dbInvMissing` the bundle behind
mapping id `B2` is genuinely missing from the warehouse tables, yet
`getWarehouseInventory` resolves it to quantity 0 (the `?? 0` fallback), so
the export reports `{total:2, synced:2, skipped:0, failed:0}` — the missing
product is synced (at stock 0), not counted as skipped with a message naming
it. -/
theorem inventory_missing_counted_synced_counterexample :
    (dbInvMissing.bundles.find? fun b => b.id == "B2") = none ∧
    getWarehouseInventory dbInvMissing "B2" "BUNDLE" none = some 0 ∧
    (syncInventoryToWooCommerce dbInvMissing okOracle "T" "I1" none).1.toOption =
      some { total := 2, synced := 2, skipped := 0, failed := 0, errors := [] } ∧
    ¬ (syncInventoryToWooCommerce dbInvMissing okOracle "T" "I1" none).1.toOption =
      some { total := 2, synced := 1, skipped := 1, failed := 0,
             errors := ["Product B2 not found in warehouse"] } := by decide

/-- C7 (amended): over exactly two sync-enabled mappings, one resolving to
available quantity 0 (a simple product) and the other UNRESOLVABLE by
`getWarehouseInventory` (in the model: a CIGAR mapping without variation id or
an unknown product type — a product merely absent from its warehouse table
resolves to 0 instead), the run returns
`{total:2, synced:1, skipped:1, failed:0}` with the skip message naming the
unresolved product id; the resolution miss is skipped, not failed and not
fatal. -/
theorem inventory_export_zero_and_miss
    (db : Db) (oracle : PlatformOracle) (now integrationId : String)
    (integ : IntegrationRow) (m0 m1 : ProductMappingRow)
    (hInteg : findIntegration db integrationId = some integ)
    (hPlat : integ.platform_type = "WOOCOMMERCE")
    (hMaps : db.productMappings.filter
      (fun m => m.integration_id == integrationId) = [m0, m1])
    (hSync0 : m0.sync_inventory = true) (hSync1 : m1.sync_inventory = true)
    (hRes0 : getWarehouseInventory db m0.warehouse_product_id
      m0.warehouse_product_type m0.warehouse_variation_id = some 0)
    (hRes1 : getWarehouseInventory db m1.warehouse_product_id
      m1.warehouse_product_type m1.warehouse_variation_id = none)
    (hSimple0 : m0.external_variation_id = none)
    (hBatch : oracle.batchUpdateProducts [(jsParseInt m0.external_product_id, 0)] =
      Except.ok ()) :
    (syncInventoryToWooCommerce db oracle now integrationId none).1 =
      Except.ok { total := 2, synced := 1, skipped := 1, failed := 0,
                  errors := ["Product " ++ m1.warehouse_product_id ++
                    " not found in warehouse"] } := by
  unfold syncInventoryToWooCommerce
  simp only [hInteg]
  rw [if_neg (show ¬ (integ.platform_type != "WOOCOMMERCE") = true by rw [hPlat]; decide)]
  dsimp only
  rw [hMaps]
  rw [show List.filter ProductMappingRow.sync_inventory [m0, m1] = [m0, m1] by
    simp [List.filter, hSync0, hSync1]]
  rw [List.foldl_cons, List.foldl_cons, List.foldl_nil]
  rw [invStep_simple oracle now _ m0]
  rotate_left
  · exact 0
  · exact hRes0
  · exact hSimple0
  rw [invStep_skip oracle now _ m1]
  rotate_left
  · exact hRes1
  dsimp only [List.nil_append]
  rw [if_pos (show ([(jsParseInt m0.external_product_id, 0)].length > 0) by simp)]
  rw [hBatch]
  rfl

/-- Witness for the amended C7 on a concrete store: a zero-stock bundle plus
a CIGAR mapping without variation id. -/
theorem inventory_export_zero_and_miss_witness :
    (syncInventoryToWooCommerce dbInvSkip okOracle "T" "I1" none).1 =
      Except.ok { total := 2, synced := 1, skipped := 1, failed := 0,
                  errors := ["Product B2 not found in warehouse"] } :=
  inventory_export_zero_and_miss dbInvSkip okOracle "T" "I1" integWoo
    mappingBundleZero mappingCigarNoVariation
    (by decide) (by decide) (by decide) (by decide) (by decide) (by decide) (by decide)
    (by decide) rfl

/-! ### Claim C8 — pipeline error boundaries -/

/-- Counterexample to C8 as stated: a fetch failure in the order-import run
happens well after the RUNNING log row exists, the pipeline updates that row
to FAILED and marks the integration ERROR — and then RE-THROWS the error past
the pipeline boundary instead of returning a structured result. -/
theorem import_pipeline_rethrows_counterexample :
    exceptErr (importOrdersFromWooCommerce dbIntegOnly failFetchOracle "T" "I1").1 =
      some "connect ECONNREFUSED" ∧
    ((importOrdersFromWooCommerce dbIntegOnly failFetchOracle "T" "I1").2.syncLogs.map
      fun r => (r.status, r.error_details)) = [("FAILED", some ["connect ECONNREFUSED"])] ∧
    ((importOrdersFromWooCommerce dbIntegOnly failFetchOracle "T" "I1").2.integrations.map
      fun i => (i.sync_status, i.error_message)) = [("ERROR", some "connect ECONNREFUSED")] := by
  decide

/-- C8 (amended): when the order-import pipeline fails mid-run (here: the
orders fetch throws after the RUNNING sync-log row was created), the catch
updates that sync-log row to FAILED with the error recorded, marks the
integration ERROR — and then re-throws, so the exception DOES cross the
pipeline boundary even though the run had begun and a log row exists. -/
theorem import_pipeline_records_then_rethrows
    (db : Db) (oracle : PlatformOracle) (now integrationId : String)
    (integ : IntegrationRow) (e : String)
    (hInteg : findIntegration db integrationId = some integ)
    (hPlat : integ.platform_type = "WOOCOMMERCE")
    (hFetch : oracle.getOrders = Except.error e)
    (hFreshLog : ∀ r ∈ db.syncLogs, r.id ≠ nextSyncLogId db) :
    (importOrdersFromWooCommerce db oracle now integrationId).1 = Except.error e ∧
    (importOrdersFromWooCommerce db oracle now integrationId).2.syncLogs =
      db.syncLogs ++
        [{ id := nextSyncLogId db, integration_id := integrationId,
           sync_type := "ORDER_IMPORT", direction := "INBOUND", status := "FAILED",
           records_processed := 0, records_failed := 0, error_details := some [e],
           started_at := now, completed_at := some now }] ∧
    findIntegration (importOrdersFromWooCommerce db oracle now integrationId).2 integrationId =
      some { integ with sync_status := "ERROR", error_message := some e } := by
  have hMain : importOrdersFromWooCommerce db oracle now integrationId =
      (Except.error e,
        updateIntegrationRow
          (updateSyncLogRow
            { db with syncLogs := db.syncLogs ++
                [{ id := nextSyncLogId db, integration_id := integrationId,
                   sync_type := "ORDER_IMPORT", direction := "INBOUND", status := "RUNNING",
                   records_processed := 0, records_failed := 0, error_details := none,
                   started_at := now, completed_at := none }] }
            (nextSyncLogId db) fun r =>
              { r with status := "FAILED", completed_at := some now, error_details := some [e] })
          integrationId fun i =>
            { i with sync_status := "ERROR", error_message := some e }) := by
    unfold importOrdersFromWooCommerce
    simp only [hInteg]
    rw [if_neg (show ¬ (integ.platform_type != "WOOCOMMERCE") = true by rw [hPlat]; decide)]
    rw [hFetch]
  rw [hMain]
  refine ⟨rfl, ?_, ?_⟩
  · show (updateSyncLogRow _ _ _).syncLogs = _
    unfold updateSyncLogRow
    rw [List.map_append]
    rw [map_update_of_not_mem SyncLogRow.id (nextSyncLogId db) _ db.syncLogs hFreshLog]
    simp
  · show ((updateIntegrationRow _ integrationId _).integrations.find? fun i => i.id == integrationId) = _
    unfold updateIntegrationRow updateSyncLogRow
    dsimp only
    rw [find_of_map_update IntegrationRow.id integrationId
      (fun i => { i with sync_status := "ERROR", error_message := some e }) (fun i => rfl)]
    rw [show (db.integrations.find? fun i => i.id == integrationId) = some integ from hInteg]
    rfl

/-- Witness for the amended C8 at a concrete store on the failing-fetch
oracle. -/
theorem import_pipeline_records_then_rethrows_witness :
    (importOrdersFromWooCommerce dbIntegOnly failFetchOracle "T" "I1").1 =
      Except.error "connect ECONNREFUSED" ∧
    (importOrdersFromWooCommerce dbIntegOnly failFetchOracle "T" "I1").2.syncLogs =
      dbIntegOnly.syncLogs ++
        [{ id := nextSyncLogId dbIntegOnly, integration_id := "I1",
           sync_type := "ORDER_IMPORT", direction := "INBOUND", status := "FAILED",
           records_processed := 0, records_failed := 0,
           error_details := some ["connect ECONNREFUSED"],
           started_at := "T", completed_at := some "T" }] ∧
    findIntegration (importOrdersFromWooCommerce dbIntegOnly failFetchOracle "T" "I1").2 "I1" =
      some { integWoo with sync_status := "ERROR", error_message := some "connect ECONNREFUSED" } :=
  import_pipeline_records_then_rethrows dbIntegOnly failFetchOracle "T" "I1" integWoo
    "connect ECONNREFUSED" (by decide) (by decide) rfl (by decide)

/-! ### Claim C9 — webhook verification -/

/-- Counterexample to C9 as stated: the integration stores a webhook secret,
the request carries NO signature header, yet the handler answers 200 and
enqueues the event — verification is skipped whenever secret or signature is
absent, so an unauthenticated request is not rejected. -/
theorem webhook_unsigned_enqueued_counterexample :
    integWoo.is_active = true ∧ integWoo.config_webhookSecret = some "topsecret" ∧
    reqNoSig.signature = none ∧
    (handleWooCommerceWebhook dbIntegOnly "T" reqNoSig).status = 200 ∧
    (handleWooCommerceWebhook dbIntegOnly "T" reqNoSig).db.webhookQueue.length = 1 := by decide

/-- C9 (amended): an integration-disabled request is rejected 400 without any
store change; a request carrying a signature that fails HMAC verification
against a stored non-empty secret is rejected 401 without any store change;
but a request WITHOUT a signature header skips verification entirely and is
enqueued (status 200, queue grows by one) even when a secret is stored. -/
theorem webhook_rejections_and_skip
    (db : Db) (now : String) (req : WebhookRequest) (integ : IntegrationRow)
    (hInteg : findIntegration db req.integrationId = some integ) :
    (integ.is_active = false →
      (handleWooCommerceWebhook db now req).status = 400 ∧
      (handleWooCommerceWebhook db now req).db = db) ∧
    (∀ secret sig, integ.is_active = true → integ.config_webhookSecret = some secret →
      secret ≠ "" → req.signature = some sig → sig ≠ "" →
      verifyWebhookSignature req.payloadRaw sig secret = false →
      (handleWooCommerceWebhook db now req).status = 401 ∧
      (handleWooCommerceWebhook db now req).db = db) ∧
    (integ.is_active = true → req.signature = none →
      (handleWooCommerceWebhook db now req).status = 200 ∧
      (handleWooCommerceWebhook db now req).db.webhookQueue.length =
        db.webhookQueue.length + 1) := by
  refine ⟨?_, ?_, ?_⟩
  · intro hInactive
    unfold handleWooCommerceWebhook
    simp only [hInteg]
    rw [if_pos (show (!integ.is_active) = true by rw [hInactive]; rfl)]
    exact ⟨rfl, rfl⟩
  · intro secret sig hAct hSec hSecNe hSig hSigNe hVer
    unfold handleWooCommerceWebhook
    simp only [hInteg]
    rw [if_neg (show ¬ (!integ.is_active) = true by rw [hAct]; decide)]
    rw [hSec, hSig]
    dsimp only [Option.getD]
    rw [if_pos (show (secret != "" && sig != "") = true by simp [hSecNe, hSigNe]), hVer]
    exact ⟨rfl, rfl⟩
  · intro hAct hNoSig
    unfold handleWooCommerceWebhook
    simp only [hInteg]
    rw [if_neg (show ¬ (!integ.is_active) = true by rw [hAct]; decide)]
    rw [hNoSig]
    dsimp only [Option.getD]
    rw [show ("" != "") = false from rfl, Bool.and_false]
    rw [if_neg (show ¬ (false = true) by decide)]
    rw [if_neg (show ¬ (!true) = true by decide)]
    have hq : ∀ (r : WebhookQueueRow),
        (if (req.topic == some "order.created" || req.topic == some "order.updated") = true then
            (processWebhookOrder { db with webhookQueue := db.webhookQueue ++ [r] } now
              req.integrationId req.payloadOrder).2
          else { db with webhookQueue := db.webhookQueue ++ [r] }).webhookQueue.length =
          db.webhookQueue.length + 1 := by
      intro r
      by_cases htop :
          (req.topic == some "order.created" || req.topic == some "order.updated") = true
      · rw [if_pos htop, processWebhookOrder_webhookQueue]
        simp
      · rw [if_neg htop]
        simp
    exact ⟨rfl, hq _⟩

set_option maxRecDepth 1000000 in
/-- Witness for the amended C9: the stored-secret integration rejects a
concretely bad signature with 401 and no store change (the HMAC mismatch is
evaluated in full). -/
theorem webhook_rejections_and_skip_witness :
    findIntegration dbIntegOnly reqBadSig.integrationId = some integWoo ∧
    integWoo.is_active = true ∧ integWoo.config_webhookSecret = some "topsecret" ∧
    reqBadSig.signature = some "nope" ∧
    verifyWebhookSignature reqBadSig.payloadRaw "nope" "topsecret" = false ∧
    (handleWooCommerceWebhook dbIntegOnly "T" reqBadSig).status = 401 ∧
    (handleWooCommerceWebhook dbIntegOnly "T" reqBadSig).db = dbIntegOnly :=
  ⟨by decide, by decide, rfl, rfl, by decide,
    (webhook_rejections_and_skip dbIntegOnly "T" reqBadSig integWoo (by decide)).2.1
      "topsecret" "nope" (by decide) rfl (by decide) rfl (by decide) (by decide)⟩

end Kubacco
